import Mathlib

/-!
Verification development for the naeturbok backend (Flask + marshmallow +
MongoDB, `app.py` and the `migrate_*.py` scripts).

The embedding works over a JSON-like value type `JVal`.  Python dicts (both
inbound request bodies and stored MongoDB documents) are association lists
`Doc := List (String × JVal)`; lookups take the first binding, matching dict
semantics (a JSON object never carries duplicate keys).  A Python
`datetime.date` object held inside a validated dict is represented by the
constructor `JVal.pydate s`, carrying the ISO `YYYY-MM-DD` rendering of the
date; since valid zero-padded ISO strings are in bijection with the date
objects marshmallow produces, `strftime('%Y-%m-%d')` is the identity on this
representation.  Python/JSON floats are represented as exact rationals: every
float literal appearing in the schemas (0, 0.5, 1, 1.5, 2, 3) is exactly
representable, so no rounding behaviour is lost.

Marshmallow's `Schema.load` is embedded per schema, following the library
semantics the source relies on (marshmallow ≥ 3.13, as witnessed by the
`load_default` keyword): a field absent from the input resolves to its raw
`load_default` value with no deserialization or validation applied; a field
present in the input is deserialized by type, then checked by its `validate`
callable; unknown keys raise `Unknown field.` errors (the schemas declare no
`Meta.unknown`, so the default `RAISE` applies); errors from all fields are
collected, keyed by the external `data_key`; `@validates_schema` hooks run
only when no field/unknown errors occurred (`skip_on_field_errors` default).
Nested error keys are flattened here to dotted paths ("upplýsingar.kaffi",
"lekar.0.tími") instead of marshmallow's nested dicts; which fields are named
is preserved.  Numeric-string coercion of `fields.Int`/`fields.Float` (e.g.
accepting "3" for 3) is not modelled; no claim quantifies over such inputs.
-/

inductive JVal where
  | null : JVal
  | bool (b : Bool) : JVal
  | int (n : Int) : JVal
  | float (q : Rat) : JVal
  | str (s : String) : JVal
  | pydate (s : String) : JVal
  | arr (xs : List JVal) : JVal
  | obj (kvs : List (String × JVal)) : JVal

/-- A Python dict / BSON document: association list, first binding wins. -/
abbrev Doc := List (String × JVal)

def getKey : Doc → String → Option JVal
  | [], _ => none
  | (k, v) :: rest, k' => if k = k' then some v else getKey rest k'

def hasKey (d : Doc) (k : String) : Bool := (getKey d k).isSome

/-- Replace the first binding of `k` (or append one): dict assignment and the
single-key effect of a MongoDB `$set`. -/
def setKey : Doc → String → JVal → Doc
  | [], k, v => [(k, v)]
  | (k', v') :: rest, k, v => if k' = k then (k', v) :: rest else (k', v') :: setKey rest k v

/-- Remove every binding of `k`: MongoDB `$unset`. -/
def unsetKey : Doc → String → Doc
  | [], _ => []
  | (k', v') :: rest, k => if k' = k then unsetKey rest k else (k', v') :: unsetKey rest k

/-- MongoDB `$set` with a whole payload: each payload field is merged into the
stored document in order. -/
def setMany (d : Doc) (upd : Doc) : Doc := upd.foldl (fun acc kv => setKey acc kv.1 kv.2) d

/-- Dotted-path read `k1.k2` as used by Mongo filters on nested fields. -/
def getPath2 (d : Doc) (k1 k2 : String) : Option JVal :=
  match getKey d k1 with
  | some (.obj o) => getKey o k2
  | _ => none

def hasPath2 (d : Doc) (k1 k2 : String) : Bool := (getPath2 d k1 k2).isSome

/-- MongoDB `$set` on a dotted path `k1.k2`: sets inside the subdocument,
creating it when absent.  When `k1` holds a non-object value the real server
rejects the write; the migrations only ever reach this operation on documents
whose `k1` is absent or an object, and theorems about them carry that
hypothesis (`objOk`), so the non-object case is left as the identity. -/
def setPath2 (d : Doc) (k1 k2 : String) (v : JVal) : Doc :=
  match getKey d k1 with
  | some (.obj o) => setKey d k1 (.obj (setKey o k2 v))
  | none => setKey d k1 (.obj [(k2, v)])
  | some _ => d

/-- MongoDB `$unset` on a dotted path `k1.k2`. -/
def unsetPath2 (d : Doc) (k1 k2 : String) : Doc :=
  match getKey d k1 with
  | some (.obj o) => setKey d k1 (.obj (unsetKey o k2))
  | _ => d

/-- The key `k1` is absent or holds an object (the shapes on which dotted-path
updates are well defined). -/
def objOk (d : Doc) (k1 : String) : Bool :=
  match getKey d k1 with
  | some (.obj _) => true
  | none => true
  | some _ => false

/-- A stored collection: documents keyed by their ObjectId (modelled as `Nat`).
`insert_one` appends; `find_one`/`update_one` take the first match. -/
abbrev Store := List (Nat × Doc)

def findById (store : Store) (i : Nat) : Option Doc :=
  (store.find? (fun nd => nd.1 == i)).map (·.2)

/-- `update_one({'_id': i}, ...)`: rewrite the first document with id `i`. -/
def updateById : Store → Nat → (Doc → Doc) → Store
  | [], _, _ => []
  | nd :: rest, i, f => if nd.1 == i then (nd.1, f nd.2) :: rest else nd :: updateById rest i f

/-- Python truthiness of a JSON value. -/
def isTruthy : JVal → Bool
  | .null => false
  | .bool b => b
  | .int n => n != 0
  | .float q => q != 0
  | .str s => s != ""
  | .pydate _ => true
  | .arr xs => !xs.isEmpty
  | .obj kvs => !kvs.isEmpty

/-- Python `x in (0, 1, 2)` / `x in [0, 1, 2]`: numeric cross-type equality,
including `False == 0` and `True == 1` for booleans. -/
def pyInZeroOneTwo : JVal → Bool
  | .int n => n == 0 || n == 1 || n == 2
  | .float q => q == 0 || q == 1 || q == 2
  | .bool _ => true
  | _ => false

/-- Python `x == 'no'` for a possibly-absent dict value (`dict.get`). -/
def pyEqNo : Option JVal → Bool
  | some (.str s) => s == "no"
  | _ => false

/-- The validator of the `or_mp` Raw field: `x == 'no' or x in [0, 1, 2]`. -/
def pyIsNoOr012 (v : JVal) : Bool :=
  (match v with | .str s => s == "no" | _ => false) || pyInZeroOneTwo v

/-- MongoDB filter `{k: 0}` matched against a scalar: numeric zero of any
numeric BSON type (booleans compare in a separate type bracket and never
equal numbers). -/
def isMongoNumZero : Option JVal → Bool
  | some (.int n) => n == 0
  | some (.float q) => q == 0
  | _ => false

/-- MongoDB filter `{k: false}` / `{k: true}` matched against a scalar. -/
def isBoolVal (o : Option JVal) (b : Bool) : Bool :=
  match o with
  | some (.bool c) => c == b
  | _ => false

def digitVal (c : Char) : Nat := c.toNat - 48

def isLeap (y : Nat) : Bool := (y % 4 == 0 && y % 100 != 0) || (y % 400 == 0)

def daysInMonth (y m : Nat) : Nat :=
  if m == 2 then (if isLeap y then 29 else 28)
  else if m == 4 || m == 6 || m == 9 || m == 11 then 30
  else 31

/-- Parse a `YYYY-MM-DD` string as `datetime.date.fromisoformat` does:
zero-padded, dashes in place, a real calendar date, year 0001–9999. -/
def parseDate (s : String) : Option (Nat × Nat × Nat) :=
  match s.data with
  | [y1, y2, y3, y4, c1, m1, m2, c2, d1, d2] =>
    if y1.isDigit && y2.isDigit && y3.isDigit && y4.isDigit && c1 == '-' &&
       m1.isDigit && m2.isDigit && c2 == '-' && d1.isDigit && d2.isDigit then
      let y := digitVal y1 * 1000 + digitVal y2 * 100 + digitVal y3 * 10 + digitVal y4
      let m := digitVal m1 * 10 + digitVal m2
      let d := digitVal d1 * 10 + digitVal d2
      if 1 ≤ y ∧ 1 ≤ m ∧ m ≤ 12 ∧ 1 ≤ d ∧ d ≤ daysInMonth y m then some (y, m, d) else none
    else none
  | _ => none

def validDateStr (s : String) : Bool := (parseDate s).isSome

/-- Field-scoped validation errors: external field name paired with message. -/
abbrev Err := List (String × String)

def errsOf : Except Err JVal → Err
  | .error es => es
  | .ok _ => []

def errsOfD : Except Err Doc → Err
  | .error es => es
  | .ok _ => []

def errsOfL : Except Err (List JVal) → Err
  | .error es => es
  | .ok _ => []

/-- Prefix nested-schema error keys with the parent field's path. -/
def nestErrs (p : String) (es : Err) : Err := es.map (fun km => (p ++ "." ++ km.1, km.2))

/-- Keys of the input dict that are not declared on the schema, each becoming
an `Unknown field.` error (marshmallow's default `unknown=RAISE`). -/
def unknownKeyErrs (input : Doc) (declared : List String) : Err :=
  ((input.map Prod.fst).filter (fun k => !(declared.contains k))).map
    (fun k => (k, "Unknown field."))

/-- `fields.Str(required=True)`. -/
def loadStrReq (k : String) : Option JVal → Except Err JVal
  | none => .error [(k, "Missing data for required field.")]
  | some (.str s) => .ok (.str s)
  | some _ => .error [(k, "Not a valid string.")]

/-- `fields.Str(load_default=...)` (the default is returned raw on absence). -/
def loadStrDflt (k : String) (dflt : JVal) : Option JVal → Except Err JVal
  | none => .ok dflt
  | some (.str s) => .ok (.str s)
  | some _ => .error [(k, "Not a valid string.")]

/-- `fields.Str(validate=lambda x: x in allowed, load_default=...)`. -/
def loadStrEnum (k : String) (allowed : List String) (dflt : JVal) :
    Option JVal → Except Err JVal
  | none => .ok dflt
  | some (.str s) => if allowed.contains s then .ok (.str s) else .error [(k, "Invalid value.")]
  | some _ => .error [(k, "Not a valid string.")]

/-- `fields.Str(validate=..., required=True)` (the `pos` field). -/
def loadStrReqEnum (k : String) (allowed : List String) : Option JVal → Except Err JVal
  | none => .error [(k, "Missing data for required field.")]
  | some (.str s) => if allowed.contains s then .ok (.str s) else .error [(k, "Invalid value.")]
  | some _ => .error [(k, "Not a valid string.")]

def boolTruthy : List String :=
  ["t", "T", "true", "True", "TRUE", "on", "On", "ON", "y", "Y", "yes", "Yes", "YES", "1"]

def boolFalsy : List String :=
  ["f", "F", "false", "False", "FALSE", "off", "Off", "OFF", "n", "N", "no", "No", "NO", "0"]

/-- `fields.Bool(load_default=...)`: recognized truthy/falsy representations
coerce; anything else is a type error. -/
def loadBool (k : String) (dflt : JVal) : Option JVal → Except Err JVal
  | none => .ok dflt
  | some (.bool b) => .ok (.bool b)
  | some (.int n) =>
      if n == 1 then .ok (.bool true)
      else if n == 0 then .ok (.bool false)
      else .error [(k, "Not a valid boolean.")]
  | some (.float q) =>
      if q == 1 then .ok (.bool true)
      else if q == 0 then .ok (.bool false)
      else .error [(k, "Not a valid boolean.")]
  | some (.str s) =>
      if boolTruthy.contains s then .ok (.bool true)
      else if boolFalsy.contains s then .ok (.bool false)
      else .error [(k, "Not a valid boolean.")]
  | some _ => .error [(k, "Not a valid boolean.")]

/-- `fields.Int(validate=p, load_default=...)` (booleans rejected, as
marshmallow's Number does). -/
def loadInt (k : String) (p : Int → Bool) (dflt : JVal) : Option JVal → Except Err JVal
  | none => .ok dflt
  | some (.int n) => if p n then .ok (.int n) else .error [(k, "Invalid value.")]
  | some _ => .error [(k, "Not a valid integer.")]

/-- `fields.Float(validate=p, load_default=...)`: ints are cast to float. -/
def loadFloat (k : String) (p : Rat → Bool) (dflt : JVal) : Option JVal → Except Err JVal
  | none => .ok dflt
  | some (.int n) => if p n then .ok (.float n) else .error [(k, "Invalid value.")]
  | some (.float q) => if p q then .ok (.float q) else .error [(k, "Invalid value.")]
  | some _ => .error [(k, "Not a valid number.")]

/-- The `km` field: `fields.Float(load_default=None, allow_none=True)`. -/
def loadKm : Option JVal → Except Err JVal
  | none => .ok .null
  | some .null => .ok .null
  | some (.int n) => .ok (.float n)
  | some (.float q) => .ok (.float q)
  | some _ => .error [("km", "Not a valid number.")]

/-- The `or_mp` field: `fields.Raw(validate=lambda x: x == 'no' or x in [0,1,2],
load_default='no', data_key='or-mp')`. -/
def loadOrMp : Option JVal → Except Err JVal
  | none => .ok (.str "no")
  | some v => if pyIsNoOr012 v then .ok v else .error [("or-mp", "Invalid value.")]

def mpPorAllowed : List String := ["tos", "estornudo", "esfuerzo", "otro", "nada"]

/-- The `or_mp_por` field: enum Str, `load_default=None`, `allow_none=True`,
`data_key='mp-por'`. -/
def loadMpPor : Option JVal → Except Err JVal
  | none => .ok .null
  | some .null => .ok .null
  | some (.str s) =>
      if mpPorAllowed.contains s then .ok (.str s) else .error [("mp-por", "Invalid value.")]
  | some _ => .error [("mp-por", "Not a valid string.")]

/-- `fields.Date(required=True)`: ISO `YYYY-MM-DD` strings deserialize to a
`datetime.date`; anything else is a field-scoped `Not a valid date.` error. -/
def loadDate (k : String) : Option JVal → Except Err JVal
  | none => .error [(k, "Missing data for required field.")]
  | some (.str s) => if validDateStr s then .ok (.pydate s) else .error [(k, "Not a valid date.")]
  | some _ => .error [(k, "Not a valid date.")]

def afengiKeys : List String := ["bjór", "vín", "annar"]

/-- `ÁfengiSchema.load`: three unconstrained Int counters, default 0. -/
def AfengiSchema_load (kvs : Doc) : Except Err Doc :=
  match loadInt "bjór" (fun _ => true) (.int 0) (getKey kvs "bjór"),
        loadInt "vín" (fun _ => true) (.int 0) (getKey kvs "vín"),
        loadInt "annar" (fun _ => true) (.int 0) (getKey kvs "annar"),
        unknownKeyErrs kvs afengiKeys with
  | .ok b, .ok v, .ok a, [] => .ok [("bjór", b), ("vín", v), ("annar", a)]
  | eb, ev, ea, unk => .error (errsOf eb ++ errsOf ev ++ errsOf ea ++ unk)

/-- The `áfengi` nested field: `fields.Nested(ÁfengiSchema, load_default={})`;
absence yields the raw `{}` default, with no nested defaulting. -/
def loadAfengi : Option JVal → Except Err JVal
  | none => .ok (.obj [])
  | some (.obj kvs) =>
      match AfengiSchema_load kvs with
      | .ok d => .ok (.obj d)
      | .error es => .error (nestErrs "áfengi" es)
  | some _ => .error [("áfengi", "Invalid type.")]

def aefingTypes : List String := ["nej", "Dir", "Flor", "labba", "annað"]

/-- `ÆfingSchema.load`: enum `type` (default 'nej') and nullable float `km`. -/
def AefingSchema_load (kvs : Doc) : Except Err Doc :=
  match loadStrEnum "type" aefingTypes (.str "nej") (getKey kvs "type"),
        loadKm (getKey kvs "km"),
        unknownKeyErrs kvs ["type", "km"] with
  | .ok t, .ok k, [] => .ok [("type", t), ("km", k)]
  | et, ek, unk => .error (errsOf et ++ errsOf ek ++ unk)

/-- The `æfing` nested field: `load_default={'type': 'nej'}` returned raw on
absence (note: no `km` member in that default). -/
def loadAefing : Option JVal → Except Err JVal
  | none => .ok (.obj [("type", .str "nej")])
  | some (.obj kvs) =>
      match AefingSchema_load kvs with
      | .ok d => .ok (.obj d)
      | .error es => .error (nestErrs "æfing" es)
  | some _ => .error [("æfing", "Invalid type.")]

def upplKeys : List String :=
  ["hvar", "kaffi", "áfengi", "æfing", "sðl", "sið lip", "sið-riv", "sið lio",
   "kvöldmatur", "sið lát", "að sofa", "natft", "bl", "pap", "tamsul"]

/-- `UpplýsingarSchema.load` applied to a present sub-object. -/
def UpplSchema_load (kvs : Doc) : Except Err Doc :=
  match loadStrDflt "hvar" (.str "") (getKey kvs "hvar"),
        loadInt "kaffi" (fun _ => true) (.int 0) (getKey kvs "kaffi"),
        loadAfengi (getKey kvs "áfengi"),
        loadAefing (getKey kvs "æfing"),
        loadBool "sðl" (.bool false) (getKey kvs "sðl"),
        loadStrDflt "sið lip" (.str "") (getKey kvs "sið lip"),
        loadStrDflt "sið-riv" (.str "") (getKey kvs "sið-riv"),
        loadStrDflt "sið lio" (.str "") (getKey kvs "sið lio"),
        loadStrDflt "kvöldmatur" (.str "") (getKey kvs "kvöldmatur"),
        loadStrDflt "sið lát" (.str "") (getKey kvs "sið lát"),
        loadStrDflt "að sofa" (.str "") (getKey kvs "að sofa"),
        loadBool "natft" (.bool false) (getKey kvs "natft"),
        loadBool "bl" (.bool false) (getKey kvs "bl"),
        loadBool "pap" (.bool false) (getKey kvs "pap"),
        loadBool "tamsul" (.bool false) (getKey kvs "tamsul"),
        unknownKeyErrs kvs upplKeys with
  | .ok v1, .ok v2, .ok v3, .ok v4, .ok v5, .ok v6, .ok v7, .ok v8, .ok v9, .ok v10,
    .ok v11, .ok v12, .ok v13, .ok v14, .ok v15, [] =>
      .ok [("hvar", v1), ("kaffi", v2), ("áfengi", v3), ("æfing", v4), ("sðl", v5),
           ("sið lip", v6), ("sið-riv", v7), ("sið lio", v8), ("kvöldmatur", v9),
           ("sið lát", v10), ("að sofa", v11), ("natft", v12), ("bl", v13),
           ("pap", v14), ("tamsul", v15)]
  | e1, e2, e3, e4, e5, e6, e7, e8, e9, e10, e11, e12, e13, e14, e15, unk =>
      .error (errsOf e1 ++ errsOf e2 ++ errsOf e3 ++ errsOf e4 ++ errsOf e5 ++ errsOf e6 ++
              errsOf e7 ++ errsOf e8 ++ errsOf e9 ++ errsOf e10 ++ errsOf e11 ++ errsOf e12 ++
              errsOf e13 ++ errsOf e14 ++ errsOf e15 ++ unk)

/-- The `upplýsingar` nested field: `load_default={}` returned raw on absence. -/
def loadUppl : Option JVal → Except Err JVal
  | none => .ok (.obj [])
  | some (.obj kvs) =>
      match UpplSchema_load kvs with
      | .ok d => .ok (.obj d)
      | .error es => .error (nestErrs "upplýsingar" es)
  | some _ => .error [("upplýsingar", "Invalid type.")]

def lekarKeys : List String := ["tími", "aðvarun", "styrkur", "þörf"]

/-- `LekarSchema.load` for one leak event: `tími` required. -/
def LekarSchema_load (kvs : Doc) : Except Err Doc :=
  match loadStrReq "tími" (getKey kvs "tími"),
        loadBool "aðvarun" (.bool false) (getKey kvs "aðvarun"),
        loadInt "styrkur" (fun n => n == 0 || n == 1 || n == 2 || n == 3) (.int 1)
          (getKey kvs "styrkur"),
        loadInt "þörf" (fun n => n == 0 || n == 1 || n == 2) (.int 0) (getKey kvs "þörf"),
        unknownKeyErrs kvs lekarKeys with
  | .ok t, .ok a, .ok s, .ok th, [] =>
      .ok [("tími", t), ("aðvarun", a), ("styrkur", s), ("þörf", th)]
  | et, ea, es, eth, unk => .error (errsOf et ++ errsOf ea ++ errsOf es ++ errsOf eth ++ unk)

/-- `LátSchema.load` for one void event: `tími` required. -/
def LatSchema_load (kvs : Doc) : Except Err Doc :=
  match loadStrReq "tími" (getKey kvs "tími"),
        loadInt "flaedi" (fun n => n == 0 || n == 1 || n == 2) (.int 0) (getKey kvs "flaedi"),
        unknownKeyErrs kvs ["tími", "flaedi"] with
  | .ok t, .ok f, [] => .ok [("tími", t), ("flaedi", f)]
  | et, ef, unk => .error (errsOf et ++ errsOf ef ++ unk)

/-- Load each element of a `fields.List(fields.Nested(...))` value, collecting
errors keyed by element index. -/
def loadItems (name : String) (f : Doc → Except Err Doc) : Nat → List JVal → Except Err (List JVal)
  | _, [] => .ok []
  | i, x :: xs =>
    let ex : Except Err JVal :=
      match x with
      | .obj kvs =>
          match f kvs with
          | .ok d => .ok (.obj d)
          | .error es => .error (nestErrs (name ++ "." ++ toString i) es)
      | _ => .error [(name ++ "." ++ toString i, "Invalid type.")]
    match ex, loadItems name f (i + 1) xs with
    | .ok v, .ok vs => .ok (v :: vs)
    | e, es => .error (errsOf e ++ errsOfL es)

/-- The `lekar` field: `fields.List(fields.Nested(LekarSchema), load_default=[])`. -/
def loadLekar : Option JVal → Except Err JVal
  | none => .ok (.arr [])
  | some (.arr xs) =>
      match loadItems "lekar" LekarSchema_load 0 xs with
      | .ok vs => .ok (.arr vs)
      | .error es => .error es
  | some _ => .error [("lekar", "Not a valid list.")]

/-- The `lát` field: `fields.List(fields.Nested(LátSchema), load_default=[])`. -/
def loadLat : Option JVal → Except Err JVal
  | none => .ok (.arr [])
  | some (.arr xs) =>
      match loadItems "lát" LatSchema_load 0 xs with
      | .ok vs => .ok (.arr vs)
      | .error es => .error es
  | some _ => .error [("lát", "Not a valid list.")]

def recordKeys : List String :=
  ["date", "upplýsingar", "lekar", "lát", "athugasemd", "ready", "frábært"]

/-- `RecordSchema().load(data)`: the NightlyRecord validator/normalizer. -/
def RecordSchema_load (input : Doc) : Except Err Doc :=
  match loadDate "date" (getKey input "date"),
        loadUppl (getKey input "upplýsingar"),
        loadLekar (getKey input "lekar"),
        loadLat (getKey input "lát"),
        loadStrDflt "athugasemd" (.str "") (getKey input "athugasemd"),
        loadBool "ready" (.bool false) (getKey input "ready"),
        loadInt "frábært" (fun n => n == 0 || n == 1 || n == 2 || n == 3) (.int 0)
          (getKey input "frábært"),
        unknownKeyErrs input recordKeys with
  | .ok d, .ok u, .ok lk, .ok lt, .ok a, .ok r, .ok f, [] =>
      .ok [("date", d), ("upplýsingar", u), ("lekar", lk), ("lát", lt),
           ("athugasemd", a), ("ready", r), ("frábært", f)]
  | ed, eu, elk, elt, ea, er, ef, unk =>
      .error (errsOf ed ++ errsOf eu ++ errsOf elk ++ errsOf elt ++ errsOf ea ++
              errsOf er ++ errsOf ef ++ unk)

def postopKeys : List String :=
  ["fecha", "hora", "pos", "hec", "or-gan", "or-ur", "or-ch", "or-vol", "or-mp",
   "mp-por", "or-mlk", "or-spv", "dol", "ingesta", "ingesta-cantidad", "medicación"]

def ingestaAllowed : List String :=
  ["", "agua", "agua con gas", "cerveza", "zumo", "leche", "otros"]

def ingestaCantidadAllowed : List String :=
  ["", "100 ml", "200 ml", "300 ml", "400 ml", "500 ml", "600 ml", "700 ml",
   "800 ml", "900 ml", "1l"]

def medicacionAllowed : List String :=
  ["", "paracetamol 1mg", "iboprufeno 600mg", "antibiótico"]

/-- The `@validates_schema validate_mp_por` hook: when `or_mp` is in
`(0, 1, 2)` and `or_mp_por` is falsy, fail naming `mp-por`. -/
def validate_mp_por (d : Doc) : Except Err Doc :=
  if pyInZeroOneTwo ((getKey d "or_mp").getD (.str "no")) &&
     !(isTruthy ((getKey d "or_mp_por").getD .null)) then
    .error [("mp-por", "mp-por es obligatorio cuando or-mp es 0, 1 o 2")]
  else .ok d

/-- `PostOpSchema().load(data)`: the PostOpRecord validator, internal
(underscored) attribute names as result keys, external hyphenated names as
error keys. -/
def PostOpSchema_load (input : Doc) : Except Err Doc :=
  match loadStrReq "fecha" (getKey input "fecha"),
        loadStrReq "hora" (getKey input "hora"),
        loadStrReqEnum "pos" ["depie", "sentado"] (getKey input "pos"),
        loadInt "hec" (fun n => n == 0 || n == 1) (.int 0) (getKey input "hec"),
        loadFloat "or-gan" (fun q => q == 0 || q == 1/2 || q == 1 || q == 2) (.int 0)
          (getKey input "or-gan"),
        loadInt "or-ur" (fun n => n == 0 || n == 1 || n == 2) (.int 0) (getKey input "or-ur"),
        loadFloat "or-ch" (fun q => q == 0 || q == 1/2 || q == 1 || q == 3/2 || q == 2 || q == 3)
          (.int 0) (getKey input "or-ch"),
        loadFloat "or-vol" (fun q => q == 0 || q == 1/2 || q == 1 || q == 3/2 || q == 2 || q == 3)
          (.int 0) (getKey input "or-vol"),
        loadOrMp (getKey input "or-mp"),
        loadMpPor (getKey input "mp-por"),
        loadInt "or-mlk" (fun n => 0 ≤ n && n ≤ 10) (.int 0) (getKey input "or-mlk"),
        loadInt "or-spv" (fun n => 0 ≤ n && n ≤ 10) (.int 0) (getKey input "or-spv"),
        loadInt "dol" (fun n => 0 ≤ n && n ≤ 5) (.int 0) (getKey input "dol"),
        loadStrEnum "ingesta" ingestaAllowed (.str "") (getKey input "ingesta"),
        loadStrEnum "ingesta-cantidad" ingestaCantidadAllowed (.str "")
          (getKey input "ingesta-cantidad"),
        loadStrEnum "medicación" medicacionAllowed (.str "") (getKey input "medicación"),
        unknownKeyErrs input postopKeys with
  | .ok v1, .ok v2, .ok v3, .ok v4, .ok v5, .ok v6, .ok v7, .ok v8, .ok v9, .ok v10,
    .ok v11, .ok v12, .ok v13, .ok v14, .ok v15, .ok v16, [] =>
      validate_mp_por
        [("fecha", v1), ("hora", v2), ("pos", v3), ("hec", v4), ("or_gan", v5),
         ("or_ur", v6), ("or_ch", v7), ("or_vol", v8), ("or_mp", v9), ("or_mp_por", v10),
         ("or_mlk", v11), ("or_spv", v12), ("dol", v13), ("ingesta", v14),
         ("ingesta_cantidad", v15), ("medicacion", v16)]
  | e1, e2, e3, e4, e5, e6, e7, e8, e9, e10, e11, e12, e13, e14, e15, e16, unk =>
      .error (errsOf e1 ++ errsOf e2 ++ errsOf e3 ++ errsOf e4 ++ errsOf e5 ++ errsOf e6 ++
              errsOf e7 ++ errsOf e8 ++ errsOf e9 ++ errsOf e10 ++ errsOf e11 ++ errsOf e12 ++
              errsOf e13 ++ errsOf e14 ++ errsOf e15 ++ errsOf e16 ++ unk)

/-- An HTTP response: `ok code data` for success envelopes, `err code msg` for
single-message failures (format/conflict/not-found), `verr` for 400 responses
carrying a field-scoped validation error payload. -/
inductive Resp where
  | ok (code : Nat) (data : Option Doc) : Resp
  | err (code : Nat) (msg : String) : Resp
  | verr (errs : Err) : Resp

/-- `len(record.get('lekar', []))`. -/
def lenLekar (d : Doc) : Nat :=
  match getKey d "lekar" with
  | some (.arr xs) => xs.length
  | _ => 0

/-- `serialize_record` on one document: converts a `datetime.date` under
'date' back to its string and recomputes 'fjöldi leka' (ObjectId-to-string
conversion is carried by the separate id component of the store model). -/
def serializeRecordDoc (d : Doc) : Doc :=
  let d' :=
    match getKey d "date" with
    | some (.pydate s) => setKey d "date" (.str s)
    | _ => d
  setKey d' "fjöldi leka" (.int (lenLekar d'))

/-- `serialize_record` as called on a possibly-absent `find_one` result. -/
def serialize_record : Option Doc → Option Doc
  | none => none
  | some d => some (serializeRecordDoc d)

/-- `serialize_postop`: only stringifies the ObjectId, which the store model
keeps outside the document, so the document itself is unchanged. -/
def serialize_postop : Option Doc → Option Doc := fun o => o

/-- The date-handling block of `create_record`/`update_record`: a date object
is rendered with `strftime('%Y-%m-%d')`; a string is re-checked with
`strptime` and a failure yields the distinct format-error response. -/
def fixDate (v : Doc) : Except Unit Doc :=
  match getKey v "date" with
  | some (.pydate s) => .ok (setKey v "date" (.str s))
  | some (.str s) => if validDateStr s then .ok v else .error ()
  | _ => .ok v

/-- `validated_data['date']` after the date-handling block (always a string
there; the fallback is never reached on schema output). -/
def dateStrOf (v : Doc) : String :=
  match getKey v "date" with
  | some (.str s) => s
  | _ => ""

/-- MongoDB filter `{'date': s}` against a stored record. -/
def hasDateStr (d : Doc) (s : String) : Bool :=
  match getKey d "date" with
  | some (.str t) => t == s
  | _ => false

/-- `POST /api/records`: validate, render date, reject duplicate date, compute
'fjöldi leka', insert, return the re-read record. `newId` stands for the
ObjectId the driver generates. -/
def create_record (store : Store) (newId : Nat) (input : Doc) : Store × Resp :=
  match RecordSchema_load input with
  | .error es => (store, .verr es)
  | .ok v0 =>
    match fixDate v0 with
    | .error _ => (store, .err 400 "Invalid date format. Use YYYY-MM-DD")
    | .ok v1 =>
      if store.any (fun nd => hasDateStr nd.2 (dateStrOf v1)) then
        (store, .err 400 "Record for this date already exists")
      else
        let v2 := setKey v1 "fjöldi leka" (.int (lenLekar v1))
        let store' := store ++ [(newId, v2)]
        (store', .ok 201 (serialize_record (findById store' newId)))

/-- `PUT /api/records/<id>`: validate, render date, compute 'fjöldi leka',
`update_one` with `$set` (no date-collision check), 404 when unmatched. -/
def update_record (store : Store) (rid : Nat) (input : Doc) : Store × Resp :=
  match RecordSchema_load input with
  | .error es => (store, .verr es)
  | .ok v0 =>
    match fixDate v0 with
    | .error _ => (store, .err 400 "Invalid date format. Use YYYY-MM-DD")
    | .ok v1 =>
      let v2 := setKey v1 "fjöldi leka" (.int (lenLekar v1))
      if store.any (fun nd => nd.1 == rid) then
        let store' := updateById store rid (fun d => setMany d v2)
        (store', .ok 200 (serialize_record (findById store' rid)))
      else
        (store, .err 404 "Record not found")

/-- The storage payload both postop routes build from the validated dict,
renaming internal attribute names back to the hyphenated storage keys. -/
def postopPayload (v : Doc) : Doc :=
  [("fecha", (getKey v "fecha").getD .null),
   ("hora", (getKey v "hora").getD .null),
   ("pos", (getKey v "pos").getD .null),
   ("hec", (getKey v "hec").getD (.int 0)),
   ("or-gan", (getKey v "or_gan").getD (.int 0)),
   ("or-ur", (getKey v "or_ur").getD (.int 0)),
   ("or-ch", (getKey v "or_ch").getD (.int 0)),
   ("or-vol", (getKey v "or_vol").getD (.int 0)),
   ("or-mp", (getKey v "or_mp").getD (.str "no")),
   ("or-mlk", (getKey v "or_mlk").getD (.int 0)),
   ("or-spv", (getKey v "or_spv").getD (.int 0)),
   ("dol", (getKey v "dol").getD (.int 0)),
   ("ingesta", (getKey v "ingesta").getD (.str "")),
   ("ingesta-cantidad", (getKey v "ingesta_cantidad").getD (.str "")),
   ("medicación", (getKey v "medicacion").getD (.str ""))]

/-- `validated.get('or_mp') in (0, 1, 2) and validated.get('or_mp_por')`. -/
def postopMpPorCond (v : Doc) : Bool :=
  pyInZeroOneTwo ((getKey v "or_mp").getD .null) &&
  isTruthy ((getKey v "or_mp_por").getD .null)

/-- The payload including the conditional `mp-por` key. -/
def postopFullPayload (v : Doc) : Doc :=
  if postopMpPorCond v then postopPayload v ++ [("mp-por", (getKey v "or_mp_por").getD .null)]
  else postopPayload v

/-- `POST /api/postop`. -/
def create_postop (store : Store) (newId : Nat) (input : Doc) : Store × Resp :=
  match PostOpSchema_load input with
  | .error es => (store, .verr es)
  | .ok v =>
    let store' := store ++ [(newId, postopFullPayload v)]
    (store', .ok 201 (serialize_postop (findById store' newId)))

/-- `PUT /api/postop/<id>`: `$set` the payload and, when the sentinel is the
literal 'no', additionally `$unset` the stored `mp-por`. -/
def update_postop (store : Store) (rid : Nat) (input : Doc) : Store × Resp :=
  match PostOpSchema_load input with
  | .error es => (store, .verr es)
  | .ok v =>
    if store.any (fun nd => nd.1 == rid) then
      let store' := updateById store rid (fun d =>
        let d' := setMany d (postopFullPayload v)
        if pyEqNo (getKey v "or_mp") then unsetKey d' "mp-por" else d')
      (store', .ok 200 (serialize_postop (findById store' rid)))
    else
      (store, .err 404 "Record not found")

/-- `migrate_frábært.py`: backfill `frábært: false` on documents lacking the
field (`update_many({'frábært': {'$exists': False}}, {'$set': ...})`). -/
def migFrabaertStep (d : Doc) : Doc :=
  if hasKey d "frábært" then d else setKey d "frábært" (.bool false)

def migrate_frabaert (s : List Doc) : List Doc := s.map migFrabaertStep

/-- First pass of `migrate_frábært_to_int.py`: `false` becomes `0`. -/
def migF2IFalse (d : Doc) : Doc :=
  if isBoolVal (getKey d "frábært") false then setKey d "frábært" (.int 0) else d

/-- Second pass of `migrate_frábært_to_int.py`: `true` becomes `1`. -/
def migF2ITrue (d : Doc) : Doc :=
  if isBoolVal (getKey d "frábært") true then setKey d "frábært" (.int 1) else d

def migrate_frabaert_to_int (s : List Doc) : List Doc := (s.map migF2IFalse).map migF2ITrue

/-- `migrate_postop_dol.py`: backfill `dol: 0` on documents lacking it. -/
def migDolStep (d : Doc) : Doc :=
  if hasKey d "dol" then d else setKey d "dol" (.int 0)

def migrate_postop_dol (s : List Doc) : List Doc := s.map migDolStep

/-- `migrate_postop_mp.py`: documents with `or-mp` equal to numeric 0 get the
string sentinel 'no'. -/
def migMpStep (d : Doc) : Doc :=
  if isMongoNumZero (getKey d "or-mp") then setKey d "or-mp" (.str "no") else d

def migrate_postop_mp (s : List Doc) : List Doc := s.map migMpStep

/-- Phase 1 of `migrate_split_lip_riv.py`: for documents with
`upplýsingar.lip-riv`, copy it to `upplýsingar.sið lip`, set
`upplýsingar.sið-riv` to "--:--", and unset the old field. -/
def migSplit1 (d : Doc) : Doc :=
  if hasPath2 d "upplýsingar" "lip-riv" then
    unsetPath2
      (setPath2
        (setPath2 d "upplýsingar" "sið lip" ((getPath2 d "upplýsingar" "lip-riv").getD (.str "")))
        "upplýsingar" "sið-riv" (.str "--:--"))
      "upplýsingar" "lip-riv"
  else d

/-- Phase 2 of `migrate_split_lip_riv.py`: documents with neither new field
get both backfilled. -/
def migSplit2 (d : Doc) : Doc :=
  if !hasPath2 d "upplýsingar" "sið lip" && !hasPath2 d "upplýsingar" "sið-riv" then
    setPath2 (setPath2 d "upplýsingar" "sið lip" (.str "")) "upplýsingar" "sið-riv" (.str "--:--")
  else d

def migrate_split_lip_riv (s : List Doc) : List Doc := (s.map migSplit1).map migSplit2

/-- What `UpplýsingarSchema().load({})` produces: every immediate member
present with its raw declared default (note `áfengi` stays `{}` and `æfing`
stays `{'type': 'nej'}` — their own members are not filled in). -/
def upplEmptyLoaded : Doc :=
  [("hvar", .str ""), ("kaffi", .int 0), ("áfengi", .obj []),
   ("æfing", .obj [("type", .str "nej")]), ("sðl", .bool false), ("sið lip", .str ""),
   ("sið-riv", .str ""), ("sið lio", .str ""), ("kvöldmatur", .str ""),
   ("sið lát", .str ""), ("að sofa", .str ""), ("natft", .bool false),
   ("bl", .bool false), ("pap", .bool false), ("tamsul", .bool false)]

/-- What `RecordSchema().load({'date': s})` produces for a valid date `s`. -/
def recordMinimalLoaded (s : String) : Doc :=
  [("date", .pydate s), ("upplýsingar", .obj []), ("lekar", .arr []), ("lát", .arr []),
   ("athugasemd", .str ""), ("ready", .bool false), ("frábært", .int 0)]

/-- What `PostOpSchema().load` produces for a minimal input supplying only the
three required fields. -/
def postopMinimalLoaded (f h p : String) : Doc :=
  [("fecha", .str f), ("hora", .str h), ("pos", .str p), ("hec", .int 0),
   ("or_gan", .int 0), ("or_ur", .int 0), ("or_ch", .int 0), ("or_vol", .int 0),
   ("or_mp", .str "no"), ("or_mp_por", .null), ("or_mlk", .int 0), ("or_spv", .int 0),
   ("dol", .int 0), ("ingesta", .str ""), ("ingesta_cantidad", .str ""),
   ("medicacion", .str "")]

/-- The document shape `create_record`/`update_record` actually persists once
`RecordSchema.load` succeeded: the validated fields with the date rendered as
a string and the computed 'fjöldi leka' appended. -/
def recordStored (s : String) (u : JVal) (xs : List JVal) (lt a r f : JVal) : Doc :=
  [("date", .str s), ("upplýsingar", u), ("lekar", .arr xs), ("lát", lt),
   ("athugasemd", a), ("ready", r), ("frábært", f), ("fjöldi leka", .int (xs.length : Int))]

/-- A loader result is a success. -/
def exOk : Except Err JVal → Bool
  | .ok _ => true
  | .error _ => false

/-- Every PostOp field loader other than `or_mp`/`or_mp_por` succeeds on the
input, and the input carries no unknown keys: the "rest of the document is
valid" guard under which the cross-field reason-code rule is observable. -/
def postopOtherOk (input : Doc) : Bool :=
  exOk (loadStrReq "fecha" (getKey input "fecha")) &&
  exOk (loadStrReq "hora" (getKey input "hora")) &&
  exOk (loadStrReqEnum "pos" ["depie", "sentado"] (getKey input "pos")) &&
  exOk (loadInt "hec" (fun n => n == 0 || n == 1) (.int 0) (getKey input "hec")) &&
  exOk (loadFloat "or-gan" (fun q => q == 0 || q == 1/2 || q == 1 || q == 2) (.int 0)
    (getKey input "or-gan")) &&
  exOk (loadInt "or-ur" (fun n => n == 0 || n == 1 || n == 2) (.int 0) (getKey input "or-ur")) &&
  exOk (loadFloat "or-ch" (fun q => q == 0 || q == 1/2 || q == 1 || q == 3/2 || q == 2 || q == 3)
    (.int 0) (getKey input "or-ch")) &&
  exOk (loadFloat "or-vol" (fun q => q == 0 || q == 1/2 || q == 1 || q == 3/2 || q == 2 || q == 3)
    (.int 0) (getKey input "or-vol")) &&
  exOk (loadInt "or-mlk" (fun n => 0 ≤ n && n ≤ 10) (.int 0) (getKey input "or-mlk")) &&
  exOk (loadInt "or-spv" (fun n => 0 ≤ n && n ≤ 10) (.int 0) (getKey input "or-spv")) &&
  exOk (loadInt "dol" (fun n => 0 ≤ n && n ≤ 5) (.int 0) (getKey input "dol")) &&
  exOk (loadStrEnum "ingesta" ingestaAllowed (.str "") (getKey input "ingesta")) &&
  exOk (loadStrEnum "ingesta-cantidad" ingestaCantidadAllowed (.str "")
    (getKey input "ingesta-cantidad")) &&
  exOk (loadStrEnum "medicación" medicacionAllowed (.str "") (getKey input "medicación")) &&
  (unknownKeyErrs input postopKeys).isEmpty

/-! Association-list and store lemmas. -/

theorem getKey_setKey_self (d : Doc) (k : String) (v : JVal) :
    getKey (setKey d k v) k = some v := by
  induction d with
  | nil => simp [setKey, getKey]
  | cons kv rest ih =>
    obtain ⟨a, b⟩ := kv
    by_cases h : a = k
    · simp [setKey, getKey, h]
    · simp [setKey, getKey, h, ih]

theorem getKey_setKey_ne (d : Doc) (k : String) (v : JVal) (k' : String) (h : k' ≠ k) :
    getKey (setKey d k v) k' = getKey d k' := by
  induction d with
  | nil => simp [setKey, getKey, Ne.symm h]
  | cons kv rest ih =>
    obtain ⟨a, b⟩ := kv
    by_cases ha : a = k
    · subst ha
      simp [setKey, getKey, Ne.symm h]
    · simp [setKey, getKey, ha, ih]

theorem getKey_unsetKey_self (d : Doc) (k : String) : getKey (unsetKey d k) k = none := by
  induction d with
  | nil => simp [unsetKey, getKey]
  | cons kv rest ih =>
    obtain ⟨a, b⟩ := kv
    by_cases h : a = k
    · simp [unsetKey, h, ih]
    · simp [unsetKey, getKey, h, ih]

theorem getKey_unsetKey_ne (d : Doc) (k k' : String) (h : k' ≠ k) :
    getKey (unsetKey d k) k' = getKey d k' := by
  induction d with
  | nil => simp [unsetKey]
  | cons kv rest ih =>
    obtain ⟨a, b⟩ := kv
    by_cases ha : a = k
    · subst ha
      simp [unsetKey, getKey, Ne.symm h, ih]
    · simp [unsetKey, getKey, ha, ih]

theorem setMany_append (d : Doc) (l1 l2 : Doc) :
    setMany d (l1 ++ l2) = setMany (setMany d l1) l2 := by
  simp [setMany, List.foldl_append]

theorem getKey_setMany_notin (d upd : Doc) (k : String) (h : getKey upd k = none) :
    getKey (setMany d upd) k = getKey d k := by
  induction upd generalizing d with
  | nil => rfl
  | cons kv rest ih =>
    obtain ⟨a, b⟩ := kv
    by_cases ha : a = k
    · simp [getKey, ha] at h
    · simp [getKey, ha] at h
      rw [show setMany d ((a, b) :: rest) = setMany (setKey d a b) rest from rfl,
          ih _ h, getKey_setKey_ne _ _ _ _ (fun hh => ha hh.symm)]

theorem findById_append_fresh (store : Store) (i : Nat) (d : Doc)
    (h : ∀ nd ∈ store, nd.1 ≠ i) : findById (store ++ [(i, d)]) i = some d := by
  induction store with
  | nil => simp [findById, List.find?]
  | cons nd rest ih =>
    have h1 : nd.1 ≠ i := h nd (by simp)
    simp only [findById, List.cons_append, List.find?]
    rw [show (nd.1 == i) = false from by simpa using h1]
    exact ih (fun x hx => h x (by simp [hx]))

theorem findById_updateById (store : Store) (i : Nat) (f : Doc → Doc) :
    findById (updateById store i f) i = (findById store i).map f := by
  induction store with
  | nil => simp [findById, updateById, List.find?]
  | cons nd rest ih =>
    by_cases h : nd.1 = i
    · simp [findById, updateById, List.find?, h]
    · have hb : (nd.1 == i) = false := by simpa using h
      simp only [updateById, hb, if_false, findById, List.find?, Bool.false_eq_true]
      simpa [findById] using ih

theorem any_of_findById (store : Store) (i : Nat) (d : Doc) (h : findById store i = some d) :
    store.any (fun nd => nd.1 == i) = true := by
  induction store with
  | nil => simp [findById] at h
  | cons nd rest ih =>
    by_cases hb : nd.1 = i
    · simp [hb]
    · have hb' : (nd.1 == i) = false := by simpa using hb
      simp only [findById, List.find?, hb'] at h
      simp only [List.any_cons, hb', Bool.false_or]
      exact ih h

/-! Inversion and construction lemmas for the schema loaders. -/

theorem loadDate_ok_inv (k : String) (o : Option JVal) (j : JVal)
    (h : loadDate k o = .ok j) :
    ∃ s, o = some (.str s) ∧ validDateStr s = true ∧ j = .pydate s := by
  rcases o with _ | x
  · simp [loadDate] at h
  · cases x <;> simp [loadDate] at h
    case str s =>
      split at h
      · next hv => exact ⟨s, rfl, hv, by injection h with h1; exact h1.symm⟩
      · exact absurd h (by simp)

theorem loadLekar_ok_arr (o : Option JVal) (j : JVal) (h : loadLekar o = .ok j) :
    ∃ xs, j = .arr xs := by
  rcases o with _ | x
  · exact ⟨[], by injection h with h1; exact h1.symm⟩
  · cases x <;> simp [loadLekar] at h
    case arr xs =>
      split at h
      · next vs heq => exact ⟨vs, by injection h with h1; exact h1.symm⟩
      · exact absurd h (by simp)

theorem RecordSchema_load_ok_inv (input : Doc) (v : Doc)
    (h : RecordSchema_load input = .ok v) :
    ∃ dt u lk lt a r f,
      loadDate "date" (getKey input "date") = .ok dt ∧
      loadUppl (getKey input "upplýsingar") = .ok u ∧
      loadLekar (getKey input "lekar") = .ok lk ∧
      loadLat (getKey input "lát") = .ok lt ∧
      loadStrDflt "athugasemd" (.str "") (getKey input "athugasemd") = .ok a ∧
      loadBool "ready" (.bool false) (getKey input "ready") = .ok r ∧
      loadInt "frábært" (fun n => n == 0 || n == 1 || n == 2 || n == 3) (.int 0)
        (getKey input "frábært") = .ok f ∧
      unknownKeyErrs input recordKeys = [] ∧
      v = [("date", dt), ("upplýsingar", u), ("lekar", lk), ("lát", lt),
           ("athugasemd", a), ("ready", r), ("frábært", f)] := by
  unfold RecordSchema_load at h
  split at h
  · next dt u lk lt a r f h1 h2 h3 h4 h5 h6 h7 h8 =>
    exact ⟨dt, u, lk, lt, a, r, f, h1, h2, h3, h4, h5, h6, h7, h8,
      by injection h with hv; exact hv.symm⟩
  · exact absurd h (by simp)

theorem RecordSchema_load_ok_build (input : Doc) (dt u lk lt a r f : JVal)
    (h1 : loadDate "date" (getKey input "date") = .ok dt)
    (h2 : loadUppl (getKey input "upplýsingar") = .ok u)
    (h3 : loadLekar (getKey input "lekar") = .ok lk)
    (h4 : loadLat (getKey input "lát") = .ok lt)
    (h5 : loadStrDflt "athugasemd" (.str "") (getKey input "athugasemd") = .ok a)
    (h6 : loadBool "ready" (.bool false) (getKey input "ready") = .ok r)
    (h7 : loadInt "frábært" (fun n => n == 0 || n == 1 || n == 2 || n == 3) (.int 0)
        (getKey input "frábært") = .ok f)
    (h8 : unknownKeyErrs input recordKeys = []) :
    RecordSchema_load input =
      .ok [("date", dt), ("upplýsingar", u), ("lekar", lk), ("lát", lt),
           ("athugasemd", a), ("ready", r), ("frábært", f)] := by
  unfold RecordSchema_load
  rw [h1, h2, h3, h4, h5, h6, h7, h8]

theorem PostOpSchema_load_ok_inv (input : Doc) (v : Doc)
    (h : PostOpSchema_load input = .ok v) :
    ∃ v1 v2 v3 v4 v5 v6 v7 v8 v9 v10 v11 v12 v13 v14 v15 v16,
      loadStrReq "fecha" (getKey input "fecha") = .ok v1 ∧
      loadStrReq "hora" (getKey input "hora") = .ok v2 ∧
      loadStrReqEnum "pos" ["depie", "sentado"] (getKey input "pos") = .ok v3 ∧
      loadInt "hec" (fun n => n == 0 || n == 1) (.int 0) (getKey input "hec") = .ok v4 ∧
      loadFloat "or-gan" (fun q => q == 0 || q == 1/2 || q == 1 || q == 2) (.int 0)
        (getKey input "or-gan") = .ok v5 ∧
      loadInt "or-ur" (fun n => n == 0 || n == 1 || n == 2) (.int 0)
        (getKey input "or-ur") = .ok v6 ∧
      loadFloat "or-ch" (fun q => q == 0 || q == 1/2 || q == 1 || q == 3/2 || q == 2 || q == 3)
        (.int 0) (getKey input "or-ch") = .ok v7 ∧
      loadFloat "or-vol" (fun q => q == 0 || q == 1/2 || q == 1 || q == 3/2 || q == 2 || q == 3)
        (.int 0) (getKey input "or-vol") = .ok v8 ∧
      loadOrMp (getKey input "or-mp") = .ok v9 ∧
      loadMpPor (getKey input "mp-por") = .ok v10 ∧
      loadInt "or-mlk" (fun n => 0 ≤ n && n ≤ 10) (.int 0) (getKey input "or-mlk") = .ok v11 ∧
      loadInt "or-spv" (fun n => 0 ≤ n && n ≤ 10) (.int 0) (getKey input "or-spv") = .ok v12 ∧
      loadInt "dol" (fun n => 0 ≤ n && n ≤ 5) (.int 0) (getKey input "dol") = .ok v13 ∧
      loadStrEnum "ingesta" ingestaAllowed (.str "") (getKey input "ingesta") = .ok v14 ∧
      loadStrEnum "ingesta-cantidad" ingestaCantidadAllowed (.str "")
        (getKey input "ingesta-cantidad") = .ok v15 ∧
      loadStrEnum "medicación" medicacionAllowed (.str "") (getKey input "medicación") = .ok v16 ∧
      unknownKeyErrs input postopKeys = [] ∧
      validate_mp_por
        [("fecha", v1), ("hora", v2), ("pos", v3), ("hec", v4), ("or_gan", v5),
         ("or_ur", v6), ("or_ch", v7), ("or_vol", v8), ("or_mp", v9), ("or_mp_por", v10),
         ("or_mlk", v11), ("or_spv", v12), ("dol", v13), ("ingesta", v14),
         ("ingesta_cantidad", v15), ("medicacion", v16)] = .ok v := by
  unfold PostOpSchema_load at h
  split at h
  · next v1 v2 v3 v4 v5 v6 v7 v8 v9 v10 v11 v12 v13 v14 v15 v16
      h1 h2 h3 h4 h5 h6 h7 h8 h9 h10 h11 h12 h13 h14 h15 h16 h17 =>
    exact ⟨v1, v2, v3, v4, v5, v6, v7, v8, v9, v10, v11, v12, v13, v14, v15, v16,
      h1, h2, h3, h4, h5, h6, h7, h8, h9, h10, h11, h12, h13, h14, h15, h16, h17, h⟩
  · exact absurd h (by simp)

theorem PostOpSchema_load_build (input : Doc) (v1 v2 v3 v4 v5 v6 v7 v8 v9 v10 v11 v12 v13 v14 v15 v16 : JVal)
    (h1 : loadStrReq "fecha" (getKey input "fecha") = .ok v1)
    (h2 : loadStrReq "hora" (getKey input "hora") = .ok v2)
    (h3 : loadStrReqEnum "pos" ["depie", "sentado"] (getKey input "pos") = .ok v3)
    (h4 : loadInt "hec" (fun n => n == 0 || n == 1) (.int 0) (getKey input "hec") = .ok v4)
    (h5 : loadFloat "or-gan" (fun q => q == 0 || q == 1/2 || q == 1 || q == 2) (.int 0)
        (getKey input "or-gan") = .ok v5)
    (h6 : loadInt "or-ur" (fun n => n == 0 || n == 1 || n == 2) (.int 0)
        (getKey input "or-ur") = .ok v6)
    (h7 : loadFloat "or-ch" (fun q => q == 0 || q == 1/2 || q == 1 || q == 3/2 || q == 2 || q == 3)
        (.int 0) (getKey input "or-ch") = .ok v7)
    (h8 : loadFloat "or-vol" (fun q => q == 0 || q == 1/2 || q == 1 || q == 3/2 || q == 2 || q == 3)
        (.int 0) (getKey input "or-vol") = .ok v8)
    (h9 : loadOrMp (getKey input "or-mp") = .ok v9)
    (h10 : loadMpPor (getKey input "mp-por") = .ok v10)
    (h11 : loadInt "or-mlk" (fun n => 0 ≤ n && n ≤ 10) (.int 0) (getKey input "or-mlk") = .ok v11)
    (h12 : loadInt "or-spv" (fun n => 0 ≤ n && n ≤ 10) (.int 0) (getKey input "or-spv") = .ok v12)
    (h13 : loadInt "dol" (fun n => 0 ≤ n && n ≤ 5) (.int 0) (getKey input "dol") = .ok v13)
    (h14 : loadStrEnum "ingesta" ingestaAllowed (.str "") (getKey input "ingesta") = .ok v14)
    (h15 : loadStrEnum "ingesta-cantidad" ingestaCantidadAllowed (.str "")
        (getKey input "ingesta-cantidad") = .ok v15)
    (h16 : loadStrEnum "medicación" medicacionAllowed (.str "")
        (getKey input "medicación") = .ok v16)
    (h17 : unknownKeyErrs input postopKeys = []) :
    PostOpSchema_load input =
      validate_mp_por
        [("fecha", v1), ("hora", v2), ("pos", v3), ("hec", v4), ("or_gan", v5),
         ("or_ur", v6), ("or_ch", v7), ("or_vol", v8), ("or_mp", v9), ("or_mp_por", v10),
         ("or_mlk", v11), ("or_spv", v12), ("dol", v13), ("ingesta", v14),
         ("ingesta_cantidad", v15), ("medicacion", v16)] := by
  unfold PostOpSchema_load
  rw [h1, h2, h3, h4, h5, h6, h7, h8, h9, h10, h11, h12, h13, h14, h15, h16, h17]

theorem getKey_eq_none_of_not_mem (d : Doc) (k : String) (h : k ∉ d.map Prod.fst) :
    getKey d k = none := by
  induction d with
  | nil => rfl
  | cons kv rest ih =>
    obtain ⟨a, b⟩ := kv
    simp only [List.map_cons, List.mem_cons] at h
    push_neg at h
    simp [getKey, Ne.symm h.1, ih h.2]

theorem getKey_setMany_nodup (d upd : Doc) (k : String) (v : JVal)
    (hnd : (upd.map Prod.fst).Nodup) (h : getKey upd k = some v) :
    getKey (setMany d upd) k = some v := by
  induction upd generalizing d with
  | nil => simp [getKey] at h
  | cons kv rest ih =>
    obtain ⟨a, b⟩ := kv
    simp only [List.map_cons, List.nodup_cons] at hnd
    have hstep : setMany d ((a, b) :: rest) = setMany (setKey d a b) rest := rfl
    by_cases ha : a = k
    · subst ha
      have hb : b = v := by simpa [getKey] using h
      subst hb
      rw [hstep, getKey_setMany_notin _ _ _ (getKey_eq_none_of_not_mem _ _ hnd.1),
          getKey_setKey_self]
    · have h' : getKey rest k = some v := by simpa [getKey, ha] using h
      rw [hstep]
      exact ih _ hnd.2 h'

theorem findById_some_of_any (store : Store) (i : Nat)
    (h : store.any (fun nd => nd.1 == i) = true) : ∃ d, findById store i = some d := by
  induction store with
  | nil => simp at h
  | cons nd rest ih =>
    by_cases hb : nd.1 = i
    · exact ⟨nd.2, by simp [findById, List.find?, hb]⟩
    · have hb' : (nd.1 == i) = false := by simpa using hb
      simp only [List.any_cons, hb', Bool.false_or] at h
      obtain ⟨d, hd⟩ := ih h
      exact ⟨d, by simpa [findById, List.find?, hb'] using hd⟩

theorem lenLekar_setKey_ne (d : Doc) (k : String) (v : JVal) (h : k ≠ "lekar") :
    lenLekar (setKey d k v) = lenLekar d := by
  unfold lenLekar
  rw [getKey_setKey_ne _ _ _ _ (Ne.symm h)]

/-- `serialize_record` always rewrites 'fjöldi leka' to the length of the
document's own 'lekar' list. -/
theorem serializeRecordDoc_leakCount (d : Doc) :
    getKey (serializeRecordDoc d) "fjöldi leka" =
      some (.int (lenLekar (serializeRecordDoc d))) := by
  unfold serializeRecordDoc
  rw [getKey_setKey_self, lenLekar_setKey_ne _ _ _ (by decide)]

/-! Characterizations of the four write routes. -/

theorem create_record_err_char (store : Store) (newId : Nat) (input : Doc) (es : Err)
    (h : RecordSchema_load input = .error es) :
    create_record store newId input = (store, .verr es) := by
  unfold create_record
  rw [h]

theorem update_record_err_char (store : Store) (rid : Nat) (input : Doc) (es : Err)
    (h : RecordSchema_load input = .error es) :
    update_record store rid input = (store, .verr es) := by
  unfold update_record
  rw [h]

theorem create_record_ok_char (store : Store) (newId : Nat) (input : Doc)
    (s : String) (u : JVal) (xs : List JVal) (lt a r f : JVal)
    (hload : RecordSchema_load input =
      .ok [("date", .pydate s), ("upplýsingar", u), ("lekar", .arr xs), ("lát", lt),
           ("athugasemd", a), ("ready", r), ("frábært", f)]) :
    create_record store newId input =
      if store.any (fun nd => hasDateStr nd.2 s) then
        (store, .err 400 "Record for this date already exists")
      else
        (store ++ [(newId, recordStored s u xs lt a r f)],
         Resp.ok 201 (serialize_record
           (findById (store ++ [(newId, recordStored s u xs lt a r f)]) newId))) := by
  unfold create_record
  rw [hload]
  rfl

theorem update_record_ok_char (store : Store) (rid : Nat) (input : Doc)
    (s : String) (u : JVal) (xs : List JVal) (lt a r f : JVal)
    (hload : RecordSchema_load input =
      .ok [("date", .pydate s), ("upplýsingar", u), ("lekar", .arr xs), ("lát", lt),
           ("athugasemd", a), ("ready", r), ("frábært", f)]) :
    update_record store rid input =
      if store.any (fun nd => nd.1 == rid) then
        (updateById store rid (fun d => setMany d (recordStored s u xs lt a r f)),
         Resp.ok 200 (serialize_record
           (findById (updateById store rid (fun d => setMany d (recordStored s u xs lt a r f)))
             rid)))
      else
        (store, .err 404 "Record not found") := by
  unfold update_record
  rw [hload]
  rfl

theorem create_postop_err_char (store : Store) (newId : Nat) (input : Doc) (es : Err)
    (h : PostOpSchema_load input = .error es) :
    create_postop store newId input = (store, .verr es) := by
  unfold create_postop
  rw [h]

theorem update_postop_err_char (store : Store) (rid : Nat) (input : Doc) (es : Err)
    (h : PostOpSchema_load input = .error es) :
    update_postop store rid input = (store, .verr es) := by
  unfold update_postop
  rw [h]

theorem create_postop_ok_char (store : Store) (newId : Nat) (input : Doc) (v : Doc)
    (hload : PostOpSchema_load input = .ok v) :
    create_postop store newId input =
      (store ++ [(newId, postopFullPayload v)],
       Resp.ok 201 (serialize_postop (findById (store ++ [(newId, postopFullPayload v)]) newId))) := by
  unfold create_postop
  rw [hload]

theorem update_postop_ok_char (store : Store) (rid : Nat) (input : Doc) (v : Doc)
    (hload : PostOpSchema_load input = .ok v) :
    update_postop store rid input =
      if store.any (fun nd => nd.1 == rid) then
        (updateById store rid (fun d =>
           if pyEqNo (getKey v "or_mp") then unsetKey (setMany d (postopFullPayload v)) "mp-por"
           else setMany d (postopFullPayload v)),
         Resp.ok 200 (serialize_postop
           (findById (updateById store rid (fun d =>
              if pyEqNo (getKey v "or_mp") then unsetKey (setMany d (postopFullPayload v)) "mp-por"
              else setMany d (postopFullPayload v))) rid)))
      else
        (store, .err 404 "Record not found") := by
  unfold update_postop
  rw [hload]

/-! Claim theorems. -/

/-- C2: for every valid NightlyRecord input (any input on which
`RecordSchema.load` succeeds — a client-supplied 'fjöldi leka' never reaches
this point, being an unknown field), the document stored by create and by
update, and the document returned in the response, carry 'fjöldi leka' equal
to the length of the resolved 'lekar' list. -/
theorem C2_leak_count_eq_lekar_length (store : Store) (newId rid : Nat) (input : Doc)
    (hfresh : ∀ nd ∈ store, nd.1 ≠ newId) :
    (∀ store' d, create_record store newId input = (store', Resp.ok 201 (some d)) →
       getKey d "fjöldi leka" = some (.int (lenLekar d)) ∧
       ∃ sd, findById store' newId = some sd ∧
         getKey sd "fjöldi leka" = some (.int (lenLekar sd))) ∧
    (∀ store' d, update_record store rid input = (store', Resp.ok 200 (some d)) →
       getKey d "fjöldi leka" = some (.int (lenLekar d)) ∧
       ∃ sd, findById store' rid = some sd ∧
         getKey sd "fjöldi leka" = some (.int (lenLekar sd))) := by
  constructor
  · intro store' d hcr
    cases hload : RecordSchema_load input with
    | error es =>
      rw [create_record_err_char _ _ _ _ hload] at hcr
      simp at hcr
    | ok v0 =>
      obtain ⟨dt, u, lk, lt, a, r, f, h1, h2, h3, h4, h5, h6, h7, h8, vEq⟩ :=
        RecordSchema_load_ok_inv _ _ hload
      obtain ⟨s, hin, hvs, dtEq⟩ := loadDate_ok_inv _ _ _ h1
      obtain ⟨xs, lkEq⟩ := loadLekar_ok_arr _ _ h3
      subst vEq dtEq lkEq
      rw [create_record_ok_char _ _ _ _ _ _ _ _ _ _ hload] at hcr
      split at hcr
      · simp at hcr
      · rw [findById_append_fresh _ _ _ hfresh] at hcr
        simp only [serialize_record] at hcr
        rw [Prod.mk.injEq] at hcr
        obtain ⟨hst, hresp⟩ := hcr
        have hd : d = serializeRecordDoc (recordStored s u xs lt a r f) := by
          injection hresp with hcode hdata
          injection hdata with hsome
          exact hsome.symm
        constructor
        · rw [hd]
          exact serializeRecordDoc_leakCount _
        · refine ⟨recordStored s u xs lt a r f, ?_, ?_⟩
          · rw [← hst]
            exact findById_append_fresh _ _ _ hfresh
          · rfl
  · intro store' d hcr
    cases hload : RecordSchema_load input with
    | error es =>
      rw [update_record_err_char _ _ _ _ hload] at hcr
      simp at hcr
    | ok v0 =>
      obtain ⟨dt, u, lk, lt, a, r, f, h1, h2, h3, h4, h5, h6, h7, h8, vEq⟩ :=
        RecordSchema_load_ok_inv _ _ hload
      obtain ⟨s, hin, hvs, dtEq⟩ := loadDate_ok_inv _ _ _ h1
      obtain ⟨xs, lkEq⟩ := loadLekar_ok_arr _ _ h3
      subst vEq dtEq lkEq
      rw [update_record_ok_char _ _ _ _ _ _ _ _ _ _ hload] at hcr
      split at hcr
      · next hany =>
        obtain ⟨old, hold⟩ := findById_some_of_any _ _ hany
        have hfind : findById
            (updateById store rid (fun dd => setMany dd (recordStored s u xs lt a r f))) rid =
            some (setMany old (recordStored s u xs lt a r f)) := by
          rw [findById_updateById, hold]
          rfl
        rw [hfind] at hcr
        simp only [serialize_record] at hcr
        rw [Prod.mk.injEq] at hcr
        obtain ⟨hst, hresp⟩ := hcr
        have hd : d = serializeRecordDoc (setMany old (recordStored s u xs lt a r f)) := by
          injection hresp with hcode hdata
          injection hdata with hsome
          exact hsome.symm
        have hndp : ((recordStored s u xs lt a r f).map Prod.fst).Nodup := by
          simp [recordStored]
        have hfj : getKey (setMany old (recordStored s u xs lt a r f)) "fjöldi leka" =
            some (.int (xs.length : Int)) :=
          getKey_setMany_nodup _ _ _ _ hndp rfl
        have hlek : getKey (setMany old (recordStored s u xs lt a r f)) "lekar" =
            some (.arr xs) :=
          getKey_setMany_nodup _ _ _ _ hndp rfl
        constructor
        · rw [hd]
          exact serializeRecordDoc_leakCount _
        · refine ⟨setMany old (recordStored s u xs lt a r f), ?_, ?_⟩
          · rw [← hst]
            exact hfind
          · rw [hfj, show lenLekar (setMany old (recordStored s u xs lt a r f)) = xs.length
              from by simp [lenLekar, hlek]]
      · simp at hcr

/-- C2 witness: instantiation at a concrete store and input. -/
theorem C2_witness :
    (∀ nd ∈ ([] : Store), nd.1 ≠ 0) ∧
    ((∀ store' d, create_record [] 0
        [("date", JVal.str "2024-01-05"), ("lekar", JVal.arr [JVal.obj [("tími", JVal.str "02:10")]])] =
          (store', Resp.ok 201 (some d)) →
       getKey d "fjöldi leka" = some (.int (lenLekar d)) ∧
       ∃ sd, findById store' 0 = some sd ∧
         getKey sd "fjöldi leka" = some (.int (lenLekar sd))) ∧
     (∀ store' d, update_record [] 0
        [("date", JVal.str "2024-01-05"), ("lekar", JVal.arr [JVal.obj [("tími", JVal.str "02:10")]])] =
          (store', Resp.ok 200 (some d)) →
       getKey d "fjöldi leka" = some (.int (lenLekar d)) ∧
       ∃ sd, findById store' 0 = some sd ∧
         getKey sd "fjöldi leka" = some (.int (lenLekar sd)))) :=
  ⟨by simp, C2_leak_count_eq_lekar_length [] 0 0
    [("date", JVal.str "2024-01-05"), ("lekar", JVal.arr [JVal.obj [("tími", JVal.str "02:10")]])]
    (by simp)⟩

/-- C5: creating a NightlyRecord whose date string equals a stored record's
date fails with the 400 conflict response and inserts nothing; creating with
a previously-unused date succeeds and appends the new document; update never
performs the date-collision check — it succeeds whenever the target id
exists, whatever dates the other stored records carry. -/
theorem C5_date_uniqueness (store : Store) (newId rid : Nat) (input v0 : Doc) (s : String)
    (hload : RecordSchema_load input = .ok v0)
    (hdate : getKey v0 "date" = some (.pydate s)) :
    ((∃ nd ∈ store, hasDateStr nd.2 s = true) →
       create_record store newId input =
         (store, Resp.err 400 "Record for this date already exists")) ∧
    ((∀ nd ∈ store, hasDateStr nd.2 s = false) →
       ∃ d, create_record store newId input =
         (store ++ [(newId, d)],
          Resp.ok 201 (serialize_record (findById (store ++ [(newId, d)]) newId)))) ∧
    (store.any (fun nd => nd.1 == rid) = true →
       ∃ store' od, update_record store rid input = (store', Resp.ok 200 od)) := by
  obtain ⟨dt, u, lk, lt, a, r, f, h1, h2, h3, h4, h5, h6, h7, h8, vEq⟩ :=
    RecordSchema_load_ok_inv _ _ hload
  obtain ⟨s0, hin, hvs, dtEq⟩ := loadDate_ok_inv _ _ _ h1
  obtain ⟨xs, lkEq⟩ := loadLekar_ok_arr _ _ h3
  subst vEq dtEq lkEq
  have hs : s0 = s := by
    have := hdate
    simp only [getKey, if_pos rfl] at this
    injection this with hthis
    injection hthis
  subst hs
  refine ⟨?_, ?_, ?_⟩
  · rintro ⟨nd, hmem, hnd⟩
    have hany : store.any (fun nd => hasDateStr nd.2 s0) = true :=
      List.any_eq_true.mpr ⟨nd, hmem, hnd⟩
    rw [create_record_ok_char _ _ _ _ _ _ _ _ _ _ hload]
    simp [hany]
  · intro hno
    have hany : store.any (fun nd => hasDateStr nd.2 s0) = false := by
      rw [Bool.eq_false_iff]
      intro hc
      obtain ⟨nd, hmem, hnd⟩ := List.any_eq_true.mp hc
      rw [hno nd hmem] at hnd
      exact Bool.false_ne_true hnd
    refine ⟨recordStored s0 u xs lt a r f, ?_⟩
    rw [create_record_ok_char _ _ _ _ _ _ _ _ _ _ hload]
    simp [hany]
  · intro hany
    rw [update_record_ok_char _ _ _ _ _ _ _ _ _ _ hload]
    simp only [hany, if_true]
    exact ⟨_, _, rfl⟩

/-- C5 witness: a store holding the date 2024-01-01, a fresh input dated
2024-01-02. -/
theorem C5_witness :
    (RecordSchema_load [("date", JVal.str "2024-01-02")] =
      .ok (recordMinimalLoaded "2024-01-02")) ∧
    (getKey (recordMinimalLoaded "2024-01-02") "date" =
      some (.pydate "2024-01-02")) ∧
    (((∃ nd ∈ [(5, [("date", JVal.str "2024-01-01")])], hasDateStr nd.2 "2024-01-02" = true) →
       create_record [(5, [("date", JVal.str "2024-01-01")])] 7 [("date", JVal.str "2024-01-02")] =
         ([(5, [("date", JVal.str "2024-01-01")])],
          Resp.err 400 "Record for this date already exists")) ∧
     ((∀ nd ∈ [(5, [("date", JVal.str "2024-01-01")])], hasDateStr nd.2 "2024-01-02" = false) →
       ∃ d, create_record [(5, [("date", JVal.str "2024-01-01")])] 7 [("date", JVal.str "2024-01-02")] =
         ([(5, [("date", JVal.str "2024-01-01")])] ++ [(7, d)],
          Resp.ok 201 (serialize_record
            (findById ([(5, [("date", JVal.str "2024-01-01")])] ++ [(7, d)]) 7)))) ∧
     (List.any [(5, [("date", JVal.str "2024-01-01")])] (fun nd => nd.1 == 5) = true →
       ∃ store' od, update_record [(5, [("date", JVal.str "2024-01-01")])] 5
         [("date", JVal.str "2024-01-02")] = (store', Resp.ok 200 od))) :=
  ⟨rfl, rfl, C5_date_uniqueness [(5, [("date", JVal.str "2024-01-01")])] 7 5
    [("date", JVal.str "2024-01-02")] (recordMinimalLoaded "2024-01-02") "2024-01-02" rfl rfl⟩

theorem mem_unknownKeyErrs (input : Doc) (declared : List String) (k : String)
    (hk : k ∈ input.map Prod.fst) (hnd : declared.contains k = false) :
    (k, "Unknown field.") ∈ unknownKeyErrs input declared := by
  unfold unknownKeyErrs
  exact List.mem_map.mpr ⟨k, List.mem_filter.mpr ⟨hk, by simpa using hnd⟩, rfl⟩

theorem RecordSchema_load_unknown (input : Doc) (k : String)
    (hk : k ∈ input.map Prod.fst) (hnd : recordKeys.contains k = false) :
    ∃ es, RecordSchema_load input = .error es ∧ (k, "Unknown field.") ∈ es := by
  have hmem := mem_unknownKeyErrs input recordKeys k hk hnd
  have hne : unknownKeyErrs input recordKeys ≠ [] := by
    intro h
    rw [h] at hmem
    simp at hmem
  unfold RecordSchema_load
  split
  · next dt u lk lt a r f h1 h2 h3 h4 h5 h6 h7 h8 => exact absurd h8 hne
  all_goals exact ⟨_, rfl, List.mem_append.mpr (Or.inr hmem)⟩

theorem PostOpSchema_load_unknown (input : Doc) (k : String)
    (hk : k ∈ input.map Prod.fst) (hnd : postopKeys.contains k = false) :
    ∃ es, PostOpSchema_load input = .error es ∧ (k, "Unknown field.") ∈ es := by
  have hmem := mem_unknownKeyErrs input postopKeys k hk hnd
  have hne : unknownKeyErrs input postopKeys ≠ [] := by
    intro h
    rw [h] at hmem
    simp at hmem
  unfold PostOpSchema_load
  split
  · next v1 v2 v3 v4 v5 v6 v7 v8 v9 v10 v11 v12 v13 v14 v15 v16
      h1 h2 h3 h4 h5 h6 h7 h8 h9 h10 h11 h12 h13 h14 h15 h16 h17 =>
    exact absurd h17 hne
  all_goals exact ⟨_, rfl, List.mem_append.mpr (Or.inr hmem)⟩

/-- C10: an inbound document carrying a top-level key not declared on the
schema (for either record type; in particular the computed 'fjöldi leka' key)
is rejected by create and by update with a field-scoped validation error
naming that key, and the store is left untouched. -/
theorem C10_unknown_keys_rejected (recStore poStore : Store) (newId rid : Nat)
    (input pinput : Doc) (k kp : String)
    (hk : k ∈ input.map Prod.fst) (hkd : recordKeys.contains k = false)
    (hp : kp ∈ pinput.map Prod.fst) (hpd : postopKeys.contains kp = false) :
    (∃ es, RecordSchema_load input = .error es ∧ (k, "Unknown field.") ∈ es ∧
       create_record recStore newId input = (recStore, .verr es) ∧
       update_record recStore rid input = (recStore, .verr es)) ∧
    (∃ es, PostOpSchema_load pinput = .error es ∧ (kp, "Unknown field.") ∈ es ∧
       create_postop poStore newId pinput = (poStore, .verr es) ∧
       update_postop poStore rid pinput = (poStore, .verr es)) := by
  obtain ⟨es, hes, hmem⟩ := RecordSchema_load_unknown input k hk hkd
  obtain ⟨es2, hes2, hmem2⟩ := PostOpSchema_load_unknown pinput kp hp hpd
  exact ⟨⟨es, hes, hmem, create_record_err_char _ _ _ _ hes, update_record_err_char _ _ _ _ hes⟩,
         ⟨es2, hes2, hmem2, create_postop_err_char _ _ _ _ hes2,
          update_postop_err_char _ _ _ _ hes2⟩⟩

/-- C10 witness: a NightlyRecord input smuggling 'fjöldi leka' and a
PostOpRecord input carrying an undeclared key 'extra'. -/
theorem C10_witness :
    ("fjöldi leka" ∈ ([("date", JVal.str "2024-01-01"), ("fjöldi leka", JVal.int 2)] : Doc).map Prod.fst) ∧
    (recordKeys.contains "fjöldi leka" = false) ∧
    ("extra" ∈ ([("fecha", JVal.str "2025-01-01"), ("hora", JVal.str "10:00"),
                 ("pos", JVal.str "depie"), ("extra", JVal.int 1)] : Doc).map Prod.fst) ∧
    (postopKeys.contains "extra" = false) ∧
    ((∃ es, RecordSchema_load [("date", JVal.str "2024-01-01"), ("fjöldi leka", JVal.int 2)] =
        .error es ∧ ("fjöldi leka", "Unknown field.") ∈ es ∧
        create_record [] 0 [("date", JVal.str "2024-01-01"), ("fjöldi leka", JVal.int 2)] =
          ([], .verr es) ∧
        update_record [] 1 [("date", JVal.str "2024-01-01"), ("fjöldi leka", JVal.int 2)] =
          ([], .verr es)) ∧
     (∃ es, PostOpSchema_load [("fecha", JVal.str "2025-01-01"), ("hora", JVal.str "10:00"),
          ("pos", JVal.str "depie"), ("extra", JVal.int 1)] = .error es ∧
        ("extra", "Unknown field.") ∈ es ∧
        create_postop [] 0 [("fecha", JVal.str "2025-01-01"), ("hora", JVal.str "10:00"),
          ("pos", JVal.str "depie"), ("extra", JVal.int 1)] = ([], .verr es) ∧
        update_postop [] 1 [("fecha", JVal.str "2025-01-01"), ("hora", JVal.str "10:00"),
          ("pos", JVal.str "depie"), ("extra", JVal.int 1)] = ([], .verr es))) :=
  ⟨by simp, rfl, by simp, rfl,
   C10_unknown_keys_rejected [] [] 0 1
     [("date", JVal.str "2024-01-01"), ("fjöldi leka", JVal.int 2)]
     [("fecha", JVal.str "2025-01-01"), ("hora", JVal.str "10:00"),
      ("pos", JVal.str "depie"), ("extra", JVal.int 1)]
     "fjöldi leka" "extra" (by simp) rfl (by simp) rfl⟩

theorem exOk_ok (e : Except Err JVal) (h : exOk e = true) : ∃ v, e = .ok v := by
  cases e with
  | ok v => exact ⟨v, rfl⟩
  | error es => simp [exOk] at h

theorem postopOtherOk_inv (input : Doc) (h : postopOtherOk input = true) :
    ∃ v1 v2 v3 v4 v5 v6 v7 v8 v11 v12 v13 v14 v15 v16,
      loadStrReq "fecha" (getKey input "fecha") = .ok v1 ∧
      loadStrReq "hora" (getKey input "hora") = .ok v2 ∧
      loadStrReqEnum "pos" ["depie", "sentado"] (getKey input "pos") = .ok v3 ∧
      loadInt "hec" (fun n => n == 0 || n == 1) (.int 0) (getKey input "hec") = .ok v4 ∧
      loadFloat "or-gan" (fun q => q == 0 || q == 1/2 || q == 1 || q == 2) (.int 0)
        (getKey input "or-gan") = .ok v5 ∧
      loadInt "or-ur" (fun n => n == 0 || n == 1 || n == 2) (.int 0)
        (getKey input "or-ur") = .ok v6 ∧
      loadFloat "or-ch" (fun q => q == 0 || q == 1/2 || q == 1 || q == 3/2 || q == 2 || q == 3)
        (.int 0) (getKey input "or-ch") = .ok v7 ∧
      loadFloat "or-vol" (fun q => q == 0 || q == 1/2 || q == 1 || q == 3/2 || q == 2 || q == 3)
        (.int 0) (getKey input "or-vol") = .ok v8 ∧
      loadInt "or-mlk" (fun n => 0 ≤ n && n ≤ 10) (.int 0) (getKey input "or-mlk") = .ok v11 ∧
      loadInt "or-spv" (fun n => 0 ≤ n && n ≤ 10) (.int 0) (getKey input "or-spv") = .ok v12 ∧
      loadInt "dol" (fun n => 0 ≤ n && n ≤ 5) (.int 0) (getKey input "dol") = .ok v13 ∧
      loadStrEnum "ingesta" ingestaAllowed (.str "") (getKey input "ingesta") = .ok v14 ∧
      loadStrEnum "ingesta-cantidad" ingestaCantidadAllowed (.str "")
        (getKey input "ingesta-cantidad") = .ok v15 ∧
      loadStrEnum "medicación" medicacionAllowed (.str "") (getKey input "medicación") = .ok v16 ∧
      unknownKeyErrs input postopKeys = [] := by
  simp only [postopOtherOk, Bool.and_eq_true] at h
  obtain ⟨⟨⟨⟨⟨⟨⟨⟨⟨⟨⟨⟨⟨⟨a1, a2⟩, a3⟩, a4⟩, a5⟩, a6⟩, a7⟩, a8⟩, a9⟩, a10⟩, a11⟩, a12⟩,
    a13⟩, a14⟩, a15⟩ := h
  obtain ⟨v1, e1⟩ := exOk_ok _ a1
  obtain ⟨v2, e2⟩ := exOk_ok _ a2
  obtain ⟨v3, e3⟩ := exOk_ok _ a3
  obtain ⟨v4, e4⟩ := exOk_ok _ a4
  obtain ⟨v5, e5⟩ := exOk_ok _ a5
  obtain ⟨v6, e6⟩ := exOk_ok _ a6
  obtain ⟨v7, e7⟩ := exOk_ok _ a7
  obtain ⟨v8, e8⟩ := exOk_ok _ a8
  obtain ⟨v11, e11⟩ := exOk_ok _ a9
  obtain ⟨v12, e12⟩ := exOk_ok _ a10
  obtain ⟨v13, e13⟩ := exOk_ok _ a11
  obtain ⟨v14, e14⟩ := exOk_ok _ a12
  obtain ⟨v15, e15⟩ := exOk_ok _ a13
  obtain ⟨v16, e16⟩ := exOk_ok _ a14
  exact ⟨v1, v2, v3, v4, v5, v6, v7, v8, v11, v12, v13, v14, v15, v16,
    e1, e2, e3, e4, e5, e6, e7, e8, e11, e12, e13, e14, e15, e16,
    List.isEmpty_iff.mp a15⟩

theorem PostOpSchema_load_mp_por_field_err (input : Doc)
    (v1 v2 v3 v4 v5 v6 v7 v8 v9 v11 v12 v13 v14 v15 v16 : JVal) (es10 : Err)
    (h1 : loadStrReq "fecha" (getKey input "fecha") = .ok v1)
    (h2 : loadStrReq "hora" (getKey input "hora") = .ok v2)
    (h3 : loadStrReqEnum "pos" ["depie", "sentado"] (getKey input "pos") = .ok v3)
    (h4 : loadInt "hec" (fun n => n == 0 || n == 1) (.int 0) (getKey input "hec") = .ok v4)
    (h5 : loadFloat "or-gan" (fun q => q == 0 || q == 1/2 || q == 1 || q == 2) (.int 0)
        (getKey input "or-gan") = .ok v5)
    (h6 : loadInt "or-ur" (fun n => n == 0 || n == 1 || n == 2) (.int 0)
        (getKey input "or-ur") = .ok v6)
    (h7 : loadFloat "or-ch" (fun q => q == 0 || q == 1/2 || q == 1 || q == 3/2 || q == 2 || q == 3)
        (.int 0) (getKey input "or-ch") = .ok v7)
    (h8 : loadFloat "or-vol" (fun q => q == 0 || q == 1/2 || q == 1 || q == 3/2 || q == 2 || q == 3)
        (.int 0) (getKey input "or-vol") = .ok v8)
    (h9 : loadOrMp (getKey input "or-mp") = .ok v9)
    (h10 : loadMpPor (getKey input "mp-por") = .error es10)
    (h11 : loadInt "or-mlk" (fun n => 0 ≤ n && n ≤ 10) (.int 0) (getKey input "or-mlk") = .ok v11)
    (h12 : loadInt "or-spv" (fun n => 0 ≤ n && n ≤ 10) (.int 0) (getKey input "or-spv") = .ok v12)
    (h13 : loadInt "dol" (fun n => 0 ≤ n && n ≤ 5) (.int 0) (getKey input "dol") = .ok v13)
    (h14 : loadStrEnum "ingesta" ingestaAllowed (.str "") (getKey input "ingesta") = .ok v14)
    (h15 : loadStrEnum "ingesta-cantidad" ingestaCantidadAllowed (.str "")
        (getKey input "ingesta-cantidad") = .ok v15)
    (h16 : loadStrEnum "medicación" medicacionAllowed (.str "")
        (getKey input "medicación") = .ok v16)
    (h17 : unknownKeyErrs input postopKeys = []) :
    PostOpSchema_load input = .error es10 := by
  unfold PostOpSchema_load
  rw [h1, h2, h3, h4, h5, h6, h7, h8, h9, h10, h11, h12, h13, h14, h15, h16, h17]
  simp [errsOf]

theorem validate_mp_por_char (d : Doc) :
    validate_mp_por d =
      if pyInZeroOneTwo ((getKey d "or_mp").getD (.str "no")) &&
         !(isTruthy ((getKey d "or_mp_por").getD .null)) then
        .error [("mp-por", "mp-por es obligatorio cuando or-mp es 0, 1 o 2")]
      else .ok d := rfl

theorem validate_mp_por_ok (d : Doc)
    (hc : (pyInZeroOneTwo ((getKey d "or_mp").getD (.str "no")) &&
           !(isTruthy ((getKey d "or_mp_por").getD .null))) = false) :
    validate_mp_por d = .ok d := by
  rw [validate_mp_por_char, hc]
  rfl

/-- C3: on a PostOpRecord input that is otherwise valid and whose sentinel
'or-mp' is an integer in {0,1,2}: omitting 'mp-por' fails validation with the
cross-field error naming 'mp-por' and writes nothing; supplying it as the
empty string fails with the field validator's error naming 'mp-por' and
writes nothing; supplying a non-empty allowed reason code makes validation
succeed. -/
theorem C3_reason_code_conditional (store : Store) (nid rid : Nat) (input : Doc) (n : Int)
    (hok : postopOtherOk input = true)
    (hmp : getKey input "or-mp" = some (.int n))
    (hn : n = 0 ∨ n = 1 ∨ n = 2) :
    (getKey input "mp-por" = none →
       ∃ es, PostOpSchema_load input = .error es ∧
         ("mp-por", "mp-por es obligatorio cuando or-mp es 0, 1 o 2") ∈ es ∧
         create_postop store nid input = (store, .verr es) ∧
         update_postop store rid input = (store, .verr es)) ∧
    (getKey input "mp-por" = some (.str "") →
       ∃ es, PostOpSchema_load input = .error es ∧
         ("mp-por", "Invalid value.") ∈ es ∧
         create_postop store nid input = (store, .verr es) ∧
         update_postop store rid input = (store, .verr es)) ∧
    (∀ rs, mpPorAllowed.contains rs = true →
       getKey input "mp-por" = some (.str rs) →
       ∃ w, PostOpSchema_load input = .ok w) := by
  obtain ⟨v1, v2, v3, v4, v5, v6, v7, v8, v11, v12, v13, v14, v15, v16,
    h1, h2, h3, h4, h5, h6, h7, h8, h11, h12, h13, h14, h15, h16, h17⟩ :=
    postopOtherOk_inv input hok
  have h9 : loadOrMp (getKey input "or-mp") = .ok (.int n) := by
    rw [hmp]
    rcases hn with rfl | rfl | rfl <;> rfl
  have hpy : pyInZeroOneTwo (.int n) = true := by
    rcases hn with rfl | rfl | rfl <;> rfl
  refine ⟨?_, ?_, ?_⟩
  · intro hnone
    have h10 : loadMpPor (getKey input "mp-por") = .ok .null := by
      rw [hnone]
      rfl
    have hload : PostOpSchema_load input =
        .error [("mp-por", "mp-por es obligatorio cuando or-mp es 0, 1 o 2")] := by
      rw [PostOpSchema_load_build input v1 v2 v3 v4 v5 v6 v7 v8 (.int n) .null
        v11 v12 v13 v14 v15 v16 h1 h2 h3 h4 h5 h6 h7 h8 h9 h10 h11 h12 h13 h14 h15 h16 h17,
        validate_mp_por_char]
      simp [getKey, hpy, isTruthy]
    exact ⟨_, hload, by simp, create_postop_err_char _ _ _ _ hload,
      update_postop_err_char _ _ _ _ hload⟩
  · intro hempty
    have h10 : loadMpPor (getKey input "mp-por") = .error [("mp-por", "Invalid value.")] := by
      rw [hempty]
      rfl
    have hload := PostOpSchema_load_mp_por_field_err input v1 v2 v3 v4 v5 v6 v7 v8 (.int n)
      v11 v12 v13 v14 v15 v16 _ h1 h2 h3 h4 h5 h6 h7 h8 h9 h10 h11 h12 h13 h14 h15 h16 h17
    exact ⟨_, hload, by simp, create_postop_err_char _ _ _ _ hload,
      update_postop_err_char _ _ _ _ hload⟩
  · intro rs hrs hsome
    have h10 : loadMpPor (getKey input "mp-por") = .ok (.str rs) := by
      rw [hsome]
      simp [loadMpPor]
      exact List.mem_of_elem_eq_true hrs
    have hne : rs ≠ "" := by
      intro h
      subst h
      exact absurd hrs (by decide)
    have hload : PostOpSchema_load input = .ok
        [("fecha", v1), ("hora", v2), ("pos", v3), ("hec", v4), ("or_gan", v5),
         ("or_ur", v6), ("or_ch", v7), ("or_vol", v8), ("or_mp", JVal.int n),
         ("or_mp_por", JVal.str rs), ("or_mlk", v11), ("or_spv", v12), ("dol", v13),
         ("ingesta", v14), ("ingesta_cantidad", v15), ("medicacion", v16)] := by
      rw [PostOpSchema_load_build input v1 v2 v3 v4 v5 v6 v7 v8 (.int n) (.str rs)
        v11 v12 v13 v14 v15 v16 h1 h2 h3 h4 h5 h6 h7 h8 h9 h10 h11 h12 h13 h14 h15 h16 h17]
      apply validate_mp_por_ok
      simp [getKey, isTruthy, hne]
    exact ⟨_, hload⟩

/-- C3 witness: a concrete otherwise-valid PostOp input with or-mp = 0. -/
theorem C3_witness :
    (postopOtherOk [("fecha", JVal.str "2025-02-03"), ("hora", JVal.str "08:30"),
       ("pos", JVal.str "depie"), ("or-mp", JVal.int 0)] = true) ∧
    (getKey [("fecha", JVal.str "2025-02-03"), ("hora", JVal.str "08:30"),
       ("pos", JVal.str "depie"), ("or-mp", JVal.int 0)] "or-mp" = some (.int 0)) ∧
    (((0 : Int) = 0 ∨ (0 : Int) = 1 ∨ (0 : Int) = 2)) ∧
    ((getKey [("fecha", JVal.str "2025-02-03"), ("hora", JVal.str "08:30"),
        ("pos", JVal.str "depie"), ("or-mp", JVal.int 0)] "mp-por" = none →
       ∃ es, PostOpSchema_load [("fecha", JVal.str "2025-02-03"), ("hora", JVal.str "08:30"),
           ("pos", JVal.str "depie"), ("or-mp", JVal.int 0)] = .error es ∧
         ("mp-por", "mp-por es obligatorio cuando or-mp es 0, 1 o 2") ∈ es ∧
         create_postop [] 0 [("fecha", JVal.str "2025-02-03"), ("hora", JVal.str "08:30"),
           ("pos", JVal.str "depie"), ("or-mp", JVal.int 0)] = ([], .verr es) ∧
         update_postop [] 1 [("fecha", JVal.str "2025-02-03"), ("hora", JVal.str "08:30"),
           ("pos", JVal.str "depie"), ("or-mp", JVal.int 0)] = ([], .verr es)) ∧
     (getKey [("fecha", JVal.str "2025-02-03"), ("hora", JVal.str "08:30"),
        ("pos", JVal.str "depie"), ("or-mp", JVal.int 0)] "mp-por" = some (.str "") →
       ∃ es, PostOpSchema_load [("fecha", JVal.str "2025-02-03"), ("hora", JVal.str "08:30"),
           ("pos", JVal.str "depie"), ("or-mp", JVal.int 0)] = .error es ∧
         ("mp-por", "Invalid value.") ∈ es ∧
         create_postop [] 0 [("fecha", JVal.str "2025-02-03"), ("hora", JVal.str "08:30"),
           ("pos", JVal.str "depie"), ("or-mp", JVal.int 0)] = ([], .verr es) ∧
         update_postop [] 1 [("fecha", JVal.str "2025-02-03"), ("hora", JVal.str "08:30"),
           ("pos", JVal.str "depie"), ("or-mp", JVal.int 0)] = ([], .verr es)) ∧
     (∀ rs, mpPorAllowed.contains rs = true →
        getKey [("fecha", JVal.str "2025-02-03"), ("hora", JVal.str "08:30"),
          ("pos", JVal.str "depie"), ("or-mp", JVal.int 0)] "mp-por" = some (.str rs) →
        ∃ w, PostOpSchema_load [("fecha", JVal.str "2025-02-03"), ("hora", JVal.str "08:30"),
          ("pos", JVal.str "depie"), ("or-mp", JVal.int 0)] = .ok w)) :=
  ⟨rfl, rfl, Or.inl rfl,
   C3_reason_code_conditional [] 0 1
     [("fecha", JVal.str "2025-02-03"), ("hora", JVal.str "08:30"),
      ("pos", JVal.str "depie"), ("or-mp", JVal.int 0)] 0 rfl rfl (Or.inl rfl)⟩

/-- C4: after a successful postop create or update whose validated sentinel
`or_mp` is the literal "no", the stored document carries no 'mp-por' key; in
particular an update unsets a previously stored reason code rather than
leaving or emptying it. -/
theorem C4_sentinel_no_clears_reason (store : Store) (nid rid : Nat) (input v : Doc)
    (hfresh : ∀ nd ∈ store, nd.1 ≠ nid)
    (hload : PostOpSchema_load input = .ok v)
    (hno : getKey v "or_mp" = some (.str "no")) :
    (∀ store' r, create_postop store nid input = (store', r) →
       ∃ sd, findById store' nid = some sd ∧ hasKey sd "mp-por" = false) ∧
    (store.any (fun nd => nd.1 == rid) = true →
       ∀ store' r, update_postop store rid input = (store', r) →
         ∃ sd, findById store' rid = some sd ∧ hasKey sd "mp-por" = false) := by
  have hcond : postopMpPorCond v = false := by
    simp [postopMpPorCond, hno, pyInZeroOneTwo]
  have hpay : postopFullPayload v = postopPayload v := by
    simp [postopFullPayload, hcond]
  have hpe : pyEqNo (getKey v "or_mp") = true := by
    rw [hno]
    rfl
  constructor
  · intro store' r hcr
    rw [create_postop_ok_char _ _ _ _ hload] at hcr
    rw [Prod.mk.injEq] at hcr
    obtain ⟨hst, hresp⟩ := hcr
    refine ⟨postopFullPayload v, ?_, ?_⟩
    · rw [← hst]
      exact findById_append_fresh _ _ _ hfresh
    · rw [hpay]
      rfl
  · intro hany store' r hup
    rw [update_postop_ok_char _ _ _ _ hload] at hup
    rw [if_pos hany, Prod.mk.injEq] at hup
    obtain ⟨hst, hresp⟩ := hup
    obtain ⟨old, hold⟩ := findById_some_of_any _ _ hany
    refine ⟨unsetKey (setMany old (postopFullPayload v)) "mp-por", ?_, ?_⟩
    · rw [← hst, findById_updateById, hold]
      simp [hpe]
    · simp [hasKey, getKey_unsetKey_self]

/-- C4 witness: an update that flips a stored reason code back to absent, and
a create with the defaulted sentinel. -/
theorem C4_witness :
    (∀ nd ∈ [(3, [("fecha", JVal.str "2025-01-01"), ("mp-por", JVal.str "tos")])], nd.1 ≠ 9) ∧
    (PostOpSchema_load [("fecha", JVal.str "2025-02-03"), ("hora", JVal.str "08:30"),
       ("pos", JVal.str "depie")] = .ok (postopMinimalLoaded "2025-02-03" "08:30" "depie")) ∧
    (getKey (postopMinimalLoaded "2025-02-03" "08:30" "depie") "or_mp" = some (.str "no")) ∧
    ((∀ store' r, create_postop [(3, [("fecha", JVal.str "2025-01-01"), ("mp-por", JVal.str "tos")])]
         9 [("fecha", JVal.str "2025-02-03"), ("hora", JVal.str "08:30"), ("pos", JVal.str "depie")] =
           (store', r) →
       ∃ sd, findById store' 9 = some sd ∧ hasKey sd "mp-por" = false) ∧
     (List.any [(3, [("fecha", JVal.str "2025-01-01"), ("mp-por", JVal.str "tos")])]
        (fun nd => nd.1 == 3) = true →
       ∀ store' r, update_postop [(3, [("fecha", JVal.str "2025-01-01"), ("mp-por", JVal.str "tos")])]
           3 [("fecha", JVal.str "2025-02-03"), ("hora", JVal.str "08:30"), ("pos", JVal.str "depie")] =
             (store', r) →
         ∃ sd, findById store' 3 = some sd ∧ hasKey sd "mp-por" = false)) :=
  ⟨by decide, rfl, rfl,
   C4_sentinel_no_clears_reason
     [(3, [("fecha", JVal.str "2025-01-01"), ("mp-por", JVal.str "tos")])] 9 3
     [("fecha", JVal.str "2025-02-03"), ("hora", JVal.str "08:30"), ("pos", JVal.str "depie")]
     (postopMinimalLoaded "2025-02-03" "08:30" "depie") (by decide) rfl rfl⟩

/-- C1 counterexample: the input {'date': '2024-01-01'}, which omits the
'upplýsingar' sub-object entirely, normalizes with 'upplýsingar' resolved to
the raw empty object — its member fields (e.g. 'hvar') are absent, not
present with defaults — refuting the claim that omission yields a
fully-defaulted sub-object with no absent field. -/
theorem C1_counterexample :
    RecordSchema_load [("date", JVal.str "2024-01-01")] =
      .ok [("date", JVal.pydate "2024-01-01"), ("upplýsingar", JVal.obj []),
           ("lekar", JVal.arr []), ("lát", JVal.arr []), ("athugasemd", JVal.str ""),
           ("ready", JVal.bool false), ("frábært", JVal.int 0)] ∧
    ((RecordSchema_load [("date", JVal.str "2024-01-01")]).toOption.bind
       (fun v => getKey v "upplýsingar")) = some (JVal.obj []) ∧
    getKey ([] : Doc) "hvar" = none :=
  ⟨rfl, rfl, rfl⟩

/-- C1 amended: supplying the sub-object as an explicit empty object does
resolve it to a fully-defaulted sub-object (every immediate member present
with its declared default); omitting it entirely resolves it to the raw
`load_default` `{}`, whose members are absent — and even the fully-defaulted
sub-object carries raw nested defaults ('áfengi' = {}, 'æfing' without 'km'),
so member fields of deeper sub-objects may still be absent. -/
theorem C1_empty_vs_omitted_subobject (input : Doc) (v : Doc)
    (hload : RecordSchema_load input = .ok v) :
    (getKey input "upplýsingar" = some (JVal.obj []) →
       getKey v "upplýsingar" = some (JVal.obj upplEmptyLoaded) ∧
       getKey upplEmptyLoaded "áfengi" = some (JVal.obj []) ∧
       getKey upplEmptyLoaded "æfing" = some (JVal.obj [("type", JVal.str "nej")]) ∧
       getKey upplEmptyLoaded "hvar" = some (JVal.str "")) ∧
    (getKey input "upplýsingar" = none →
       getKey v "upplýsingar" = some (JVal.obj [])) := by
  obtain ⟨dt, u, lk, lt, a, r, f, h1, h2, h3, h4, h5, h6, h7, h8, vEq⟩ :=
    RecordSchema_load_ok_inv _ _ hload
  subst vEq
  constructor
  · intro hin
    rw [hin] at h2
    have h2' : loadUppl (some (JVal.obj [])) = .ok (JVal.obj upplEmptyLoaded) := rfl
    rw [h2'] at h2
    injection h2 with h2
    subst h2
    exact ⟨rfl, rfl, rfl, rfl⟩
  · intro hin
    rw [hin] at h2
    have h2' : loadUppl none = .ok (JVal.obj []) := rfl
    rw [h2'] at h2
    injection h2 with h2
    subst h2
    rfl

/-- C1 witness: instantiation at the input carrying an explicit empty
'upplýsingar'. -/
theorem C1_witness :
    (RecordSchema_load [("date", JVal.str "2024-03-04"), ("upplýsingar", JVal.obj [])] =
      .ok [("date", JVal.pydate "2024-03-04"), ("upplýsingar", JVal.obj upplEmptyLoaded),
           ("lekar", JVal.arr []), ("lát", JVal.arr []), ("athugasemd", JVal.str ""),
           ("ready", JVal.bool false), ("frábært", JVal.int 0)]) ∧
    ((getKey [("date", JVal.str "2024-03-04"), ("upplýsingar", JVal.obj [])] "upplýsingar" =
        some (JVal.obj []) →
       getKey [("date", JVal.pydate "2024-03-04"), ("upplýsingar", JVal.obj upplEmptyLoaded),
           ("lekar", JVal.arr []), ("lát", JVal.arr []), ("athugasemd", JVal.str ""),
           ("ready", JVal.bool false), ("frábært", JVal.int 0)] "upplýsingar" =
         some (JVal.obj upplEmptyLoaded) ∧
       getKey upplEmptyLoaded "áfengi" = some (JVal.obj []) ∧
       getKey upplEmptyLoaded "æfing" = some (JVal.obj [("type", JVal.str "nej")]) ∧
       getKey upplEmptyLoaded "hvar" = some (JVal.str "")) ∧
     (getKey [("date", JVal.str "2024-03-04"), ("upplýsingar", JVal.obj [])] "upplýsingar" =
        none →
       getKey [("date", JVal.pydate "2024-03-04"), ("upplýsingar", JVal.obj upplEmptyLoaded),
           ("lekar", JVal.arr []), ("lát", JVal.arr []), ("athugasemd", JVal.str ""),
           ("ready", JVal.bool false), ("frábært", JVal.int 0)] "upplýsingar" =
         some (JVal.obj []))) :=
  ⟨rfl, C1_empty_vs_omitted_subobject
    [("date", JVal.str "2024-03-04"), ("upplýsingar", JVal.obj [])]
    [("date", JVal.pydate "2024-03-04"), ("upplýsingar", JVal.obj upplEmptyLoaded),
     ("lekar", JVal.arr []), ("lát", JVal.arr []), ("athugasemd", JVal.str ""),
     ("ready", JVal.bool false), ("frábært", JVal.int 0)] rfl⟩

/-- C6 counterexample: a stored document with an extra key 'legacy' (outside
the schema) keeps that key after a successful PUT — `update_one` uses `$set`,
a merge, not a full replace — refuting "no field of the previously stored
document outside the validated document survives the update". -/
theorem C6_counterexample :
    update_record [(0, [("legacy", JVal.str "x"), ("date", JVal.str "2024-01-01")])] 0
        [("date", JVal.str "2024-01-02")] =
      ([(0, [("legacy", JVal.str "x"), ("date", JVal.str "2024-01-02"),
             ("upplýsingar", JVal.obj []), ("lekar", JVal.arr []), ("lát", JVal.arr []),
             ("athugasemd", JVal.str ""), ("ready", JVal.bool false), ("frábært", JVal.int 0),
             ("fjöldi leka", JVal.int 0)])],
       Resp.ok 200 (some [("legacy", JVal.str "x"), ("date", JVal.str "2024-01-02"),
             ("upplýsingar", JVal.obj []), ("lekar", JVal.arr []), ("lát", JVal.arr []),
             ("athugasemd", JVal.str ""), ("ready", JVal.bool false), ("frábært", JVal.int 0),
             ("fjöldi leka", JVal.int 0)])) ∧
    recordKeys.contains "legacy" = false :=
  ⟨rfl, rfl⟩

/-- C6 amended: a successful PUT merges (`$set`) the validated document plus
the computed leak count into the stored document: every key of the validated
update document is overwritten with its new value, while any stored key
outside the update document (such as a legacy field) survives with its old
value.  The update document is exactly the validated fields plus
'fjöldi leka'. -/
theorem C6_update_is_set_merge (store : Store) (rid : Nat) (input v0 old : Doc)
    (hload : RecordSchema_load input = .ok v0)
    (hold : findById store rid = some old) :
    ∃ s u xs lt a r f store',
      v0 = [("date", JVal.pydate s), ("upplýsingar", u), ("lekar", JVal.arr xs), ("lát", lt),
            ("athugasemd", a), ("ready", r), ("frábært", f)] ∧
      update_record store rid input =
        (store', Resp.ok 200 (serialize_record (findById store' rid))) ∧
      findById store' rid = some (setMany old (recordStored s u xs lt a r f)) ∧
      (∀ k, getKey (recordStored s u xs lt a r f) k = none →
         getKey (setMany old (recordStored s u xs lt a r f)) k = getKey old k) ∧
      (∀ k w, getKey (recordStored s u xs lt a r f) k = some w →
         getKey (setMany old (recordStored s u xs lt a r f)) k = some w) := by
  obtain ⟨dt, u, lk, lt, a, r, f, h1, h2, h3, h4, h5, h6, h7, h8, vEq⟩ :=
    RecordSchema_load_ok_inv _ _ hload
  obtain ⟨s, hin, hvs, dtEq⟩ := loadDate_ok_inv _ _ _ h1
  obtain ⟨xs, lkEq⟩ := loadLekar_ok_arr _ _ h3
  subst vEq dtEq lkEq
  have hany : store.any (fun nd => nd.1 == rid) = true := any_of_findById _ _ _ hold
  have hfind : findById
      (updateById store rid (fun dd => setMany dd (recordStored s u xs lt a r f))) rid =
      some (setMany old (recordStored s u xs lt a r f)) := by
    rw [findById_updateById, hold]
    rfl
  refine ⟨s, u, xs, lt, a, r, f, _, rfl, ?_, hfind, ?_, ?_⟩
  · rw [update_record_ok_char _ _ _ _ _ _ _ _ _ _ hload, if_pos hany]
  · intro k hk
    exact getKey_setMany_notin _ _ _ hk
  · intro k w hk
    exact getKey_setMany_nodup _ _ _ _ (by simp [recordStored]) hk

/-- C6 witness: the merge characterization applied to the store of the
counterexample. -/
theorem C6_witness :
    (RecordSchema_load [("date", JVal.str "2024-01-02")] =
      .ok (recordMinimalLoaded "2024-01-02")) ∧
    (findById [(0, [("legacy", JVal.str "x"), ("date", JVal.str "2024-01-01")])] 0 =
      some [("legacy", JVal.str "x"), ("date", JVal.str "2024-01-01")]) ∧
    (∃ s u xs lt a r f store',
      recordMinimalLoaded "2024-01-02" =
        [("date", JVal.pydate s), ("upplýsingar", u), ("lekar", JVal.arr xs), ("lát", lt),
         ("athugasemd", a), ("ready", r), ("frábært", f)] ∧
      update_record [(0, [("legacy", JVal.str "x"), ("date", JVal.str "2024-01-01")])] 0
          [("date", JVal.str "2024-01-02")] =
        (store', Resp.ok 200 (serialize_record (findById store' 0))) ∧
      findById store' 0 =
        some (setMany [("legacy", JVal.str "x"), ("date", JVal.str "2024-01-01")]
          (recordStored s u xs lt a r f)) ∧
      (∀ k, getKey (recordStored s u xs lt a r f) k = none →
         getKey (setMany [("legacy", JVal.str "x"), ("date", JVal.str "2024-01-01")]
           (recordStored s u xs lt a r f)) k =
         getKey [("legacy", JVal.str "x"), ("date", JVal.str "2024-01-01")] k) ∧
      (∀ k w, getKey (recordStored s u xs lt a r f) k = some w →
         getKey (setMany [("legacy", JVal.str "x"), ("date", JVal.str "2024-01-01")]
           (recordStored s u xs lt a r f)) k = some w)) :=
  ⟨rfl, rfl, C6_update_is_set_merge
    [(0, [("legacy", JVal.str "x"), ("date", JVal.str "2024-01-01")])] 0
    [("date", JVal.str "2024-01-02")] (recordMinimalLoaded "2024-01-02")
    [("legacy", JVal.str "x"), ("date", JVal.str "2024-01-01")] rfl rfl⟩

theorem RecordSchema_load_date_err (input : Doc) (es0 : Err)
    (hd : loadDate "date" (getKey input "date") = .error es0) :
    ∃ es, RecordSchema_load input = .error es ∧ ∀ e ∈ es0, e ∈ es := by
  unfold RecordSchema_load
  split
  · next dt u lk lt a r f h1 h2 h3 h4 h5 h6 h7 h8 =>
    rw [hd] at h1
    exact absurd h1 (by simp)
  all_goals
    refine ⟨_, rfl, fun e he => ?_⟩
    have hmem0 : e ∈ errsOf (loadDate "date" (getKey input "date")) := by
      rw [hd]
      exact he
    simp only [List.mem_append]
    exact Or.inl (Or.inl (Or.inl (Or.inl (Or.inl (Or.inl (Or.inl hmem0))))))

/-- C7 counterexample: the input {'date': '2024/01/01'} (not matching
YYYY-MM-DD) is rejected by create with the generic field-scoped validation
error naming 'date', not with the distinct 400 format-error response the
claim requires. -/
theorem C7_counterexample :
    create_record [] 0 [("date", JVal.str "2024/01/01")] =
      ([], Resp.verr [("date", "Not a valid date.")]) ∧
    (Resp.verr [("date", "Not a valid date.")] ≠
      Resp.err 400 "Invalid date format. Use YYYY-MM-DD") :=
  ⟨rfl, by simp⟩

/-- C7 amended: a NightlyRecord create or update whose date string does not
match YYYY-MM-DD is rejected with no write — but by the schema's field-scoped
validation error naming 'date' ('Not a valid date.'), not by the distinct
format error; the distinct format-error response is dead code, never produced
by either route on any input (the schema hands the route a date object, so
the string re-check branch is unreachable). -/
theorem C7_invalid_date_generic_error (store : Store) (newId rid : Nat) (input : Doc)
    (s : String)
    (hdate : getKey input "date" = some (JVal.str s))
    (hbad : validDateStr s = false) :
    (∃ es, RecordSchema_load input = .error es ∧ ("date", "Not a valid date.") ∈ es ∧
       create_record store newId input = (store, .verr es) ∧
       update_record store rid input = (store, .verr es)) ∧
    (∀ (st : Store) (inp : Doc),
       (create_record st newId inp).2 ≠ Resp.err 400 "Invalid date format. Use YYYY-MM-DD" ∧
       (update_record st rid inp).2 ≠ Resp.err 400 "Invalid date format. Use YYYY-MM-DD") := by
  constructor
  · have hd : loadDate "date" (getKey input "date") = .error [("date", "Not a valid date.")] := by
      rw [hdate]
      simp [loadDate, hbad]
    obtain ⟨es, hes, hsub⟩ := RecordSchema_load_date_err input _ hd
    exact ⟨es, hes, hsub _ (by simp), create_record_err_char _ _ _ _ hes,
      update_record_err_char _ _ _ _ hes⟩
  · intro st inp
    constructor
    · cases hload : RecordSchema_load inp with
      | error es =>
        rw [create_record_err_char _ _ _ _ hload]
        simp
      | ok v0 =>
        obtain ⟨dt, u, lk, lt, a, r, f, h1, h2, h3, h4, h5, h6, h7, h8, vEq⟩ :=
          RecordSchema_load_ok_inv _ _ hload
        obtain ⟨s', hin, hvs, dtEq⟩ := loadDate_ok_inv _ _ _ h1
        obtain ⟨xs, lkEq⟩ := loadLekar_ok_arr _ _ h3
        subst vEq dtEq lkEq
        rw [create_record_ok_char _ _ _ _ _ _ _ _ _ _ hload]
        split <;> simp
    · cases hload : RecordSchema_load inp with
      | error es =>
        rw [update_record_err_char _ _ _ _ hload]
        simp
      | ok v0 =>
        obtain ⟨dt, u, lk, lt, a, r, f, h1, h2, h3, h4, h5, h6, h7, h8, vEq⟩ :=
          RecordSchema_load_ok_inv _ _ hload
        obtain ⟨s', hin, hvs, dtEq⟩ := loadDate_ok_inv _ _ _ h1
        obtain ⟨xs, lkEq⟩ := loadLekar_ok_arr _ _ h3
        subst vEq dtEq lkEq
        rw [update_record_ok_char _ _ _ _ _ _ _ _ _ _ hload]
        split <;> simp

/-- C7 witness: instantiation at the malformed date string '01/02/2024'. -/
theorem C7_witness :
    (getKey [("date", JVal.str "01/02/2024")] "date" = some (JVal.str "01/02/2024")) ∧
    (validDateStr "01/02/2024" = false) ∧
    ((∃ es, RecordSchema_load [("date", JVal.str "01/02/2024")] = .error es ∧
        ("date", "Not a valid date.") ∈ es ∧
        create_record [] 0 [("date", JVal.str "01/02/2024")] = ([], .verr es) ∧
        update_record [] 1 [("date", JVal.str "01/02/2024")] = ([], .verr es)) ∧
     (∀ (st : Store) (inp : Doc),
        (create_record st 0 inp).2 ≠ Resp.err 400 "Invalid date format. Use YYYY-MM-DD" ∧
        (update_record st 1 inp).2 ≠ Resp.err 400 "Invalid date format. Use YYYY-MM-DD")) :=
  ⟨rfl, rfl, C7_invalid_date_generic_error [] 0 1 [("date", JVal.str "01/02/2024")]
    "01/02/2024" rfl rfl⟩

/-- C8 counterexample: the input {'date': '2024-01-01', 'lekar': [{}]} — a
leak event whose 'tími' member is absent — is rejected for that absence
alone, and no write occurs: 'tími' of a leak event is a required field with
no default, contradicting "for every field of both record types a default
value exists". -/
theorem C8_counterexample :
    RecordSchema_load [("date", JVal.str "2024-01-01"), ("lekar", JVal.arr [JVal.obj []])] =
      .error [("lekar.0.tími", "Missing data for required field.")] ∧
    create_record [] 0 [("date", JVal.str "2024-01-01"), ("lekar", JVal.arr [JVal.obj []])] =
      ([], .verr [("lekar.0.tími", "Missing data for required field.")]) :=
  ⟨rfl, rfl⟩

theorem LekarSchema_load_timi_required (kvs : Doc) (hnone : getKey kvs "tími" = none) :
    ∃ es, LekarSchema_load kvs = .error es ∧
      ("tími", "Missing data for required field.") ∈ es := by
  unfold LekarSchema_load
  split
  · next t a s' th h1 h2 h3 h4 h5 =>
    rw [hnone] at h1
    exact absurd h1 (by simp [loadStrReq])
  all_goals
    refine ⟨_, rfl, ?_⟩
    have hm : ("tími", "Missing data for required field.") ∈
        errsOf (loadStrReq "tími" (getKey kvs "tími")) := by
      rw [hnone]
      simp [loadStrReq, errsOf]
    simp only [List.mem_append]
    exact Or.inl (Or.inl (Or.inl (Or.inl hm)))

theorem LatSchema_load_timi_required (kvs : Doc) (hnone : getKey kvs "tími" = none) :
    ∃ es, LatSchema_load kvs = .error es ∧
      ("tími", "Missing data for required field.") ∈ es := by
  unfold LatSchema_load
  split
  · next t fl h1 h2 h3 =>
    rw [hnone] at h1
    exact absurd h1 (by simp [loadStrReq])
  all_goals
    refine ⟨_, rfl, ?_⟩
    have hm : ("tími", "Missing data for required field.") ∈
        errsOf (loadStrReq "tími" (getKey kvs "tími")) := by
      rw [hnone]
      simp [loadStrReq, errsOf]
    simp only [List.mem_append]
    exact Or.inl (Or.inl hm)

/-- C8 amended: every top-level field of both record types other than the
required ones (`date`; `fecha`+`hora`+`pos`) has a default — a minimal input
carrying only the required fields loads successfully with every other
top-level field resolved to its default — but inside leak and void event
items the time field 'tími' is required with no default, and its absence is
itself a validation error naming that member. -/
theorem C8_defaults_except_event_time (s f h p : String)
    (hvs : validDateStr s = true)
    (hp : (["depie", "sentado"] : List String).contains p = true) :
    RecordSchema_load [("date", JVal.str s)] = .ok (recordMinimalLoaded s) ∧
    PostOpSchema_load [("fecha", JVal.str f), ("hora", JVal.str h), ("pos", JVal.str p)] =
      .ok (postopMinimalLoaded f h p) ∧
    (∀ kvs : Doc, getKey kvs "tími" = none →
       ∃ es, LekarSchema_load kvs = .error es ∧
         ("tími", "Missing data for required field.") ∈ es) ∧
    (∀ kvs : Doc, getKey kvs "tími" = none →
       ∃ es, LatSchema_load kvs = .error es ∧
         ("tími", "Missing data for required field.") ∈ es) := by
  refine ⟨?_, ?_, LekarSchema_load_timi_required, LatSchema_load_timi_required⟩
  · have h1 : loadDate "date" (getKey [("date", JVal.str s)] "date") = .ok (.pydate s) := by
      show loadDate "date" (some (JVal.str s)) = .ok (.pydate s)
      simp [loadDate, hvs]
    simp only [recordMinimalLoaded]
    exact RecordSchema_load_ok_build _ _ _ _ _ _ _ _ h1 rfl rfl rfl rfl rfl rfl rfl
  · have h3 : loadStrReqEnum "pos" ["depie", "sentado"]
        (getKey [("fecha", JVal.str f), ("hora", JVal.str h), ("pos", JVal.str p)] "pos") =
        .ok (.str p) := by
      show loadStrReqEnum "pos" ["depie", "sentado"] (some (JVal.str p)) = .ok (.str p)
      have hp' : p = "depie" ∨ p = "sentado" := by simpa using hp
      rcases hp' with rfl | rfl <;> rfl
    rw [PostOpSchema_load_build
      [("fecha", JVal.str f), ("hora", JVal.str h), ("pos", JVal.str p)]
      (.str f) (.str h) (.str p) (.int 0) (.int 0) (.int 0)
      (.int 0) (.int 0) (.str "no") .null (.int 0) (.int 0) (.int 0) (.str "") (.str "")
      (.str "") rfl rfl h3 rfl rfl rfl rfl rfl rfl rfl rfl rfl rfl rfl rfl rfl rfl]
    simp only [postopMinimalLoaded]
    apply validate_mp_por_ok
    simp [getKey, pyInZeroOneTwo]

/-- C8 witness: the minimal inputs at concrete values, and empty event items. -/
theorem C8_witness :
    (validDateStr "2024-06-01" = true) ∧
    ((["depie", "sentado"] : List String).contains "sentado" = true) ∧
    (RecordSchema_load [("date", JVal.str "2024-06-01")] =
       .ok (recordMinimalLoaded "2024-06-01") ∧
     PostOpSchema_load [("fecha", JVal.str "2025-02-03"), ("hora", JVal.str "23:55"),
         ("pos", JVal.str "sentado")] =
       .ok (postopMinimalLoaded "2025-02-03" "23:55" "sentado") ∧
     (∀ kvs : Doc, getKey kvs "tími" = none →
        ∃ es, LekarSchema_load kvs = .error es ∧
          ("tími", "Missing data for required field.") ∈ es) ∧
     (∀ kvs : Doc, getKey kvs "tími" = none →
        ∃ es, LatSchema_load kvs = .error es ∧
          ("tími", "Missing data for required field.") ∈ es)) :=
  ⟨rfl, rfl, C8_defaults_except_event_time "2024-06-01" "2025-02-03" "23:55" "sentado" rfl rfl⟩

/-! Migration lemmas. -/

theorem hasKey_setKey_self (d : Doc) (k : String) (v : JVal) :
    hasKey (setKey d k v) k = true := by
  simp [hasKey, getKey_setKey_self]

theorem map_fix_of_pointwise (f : Doc → Doc) (l : List Doc) (h : ∀ d ∈ l, f d = d) :
    l.map f = l := by
  induction l with
  | nil => rfl
  | cons x xs ih =>
    rw [List.map_cons, h x (by simp), ih (fun d hd => h d (by simp [hd]))]

theorem migFrabaertStep_fix (d : Doc) :
    migFrabaertStep (migFrabaertStep d) = migFrabaertStep d := by
  by_cases h : hasKey d "frábært" = true
  · simp [migFrabaertStep, h]
  · have h2 : migFrabaertStep d = setKey d "frábært" (.bool false) := by
      simp [migFrabaertStep, h]
    rw [h2]
    simp [migFrabaertStep, hasKey_setKey_self]

theorem migDolStep_fix (d : Doc) : migDolStep (migDolStep d) = migDolStep d := by
  by_cases h : hasKey d "dol" = true
  · simp [migDolStep, h]
  · have h2 : migDolStep d = setKey d "dol" (.int 0) := by
      simp [migDolStep, h]
    rw [h2]
    simp [migDolStep, hasKey_setKey_self]

theorem migMpStep_fix (d : Doc) : migMpStep (migMpStep d) = migMpStep d := by
  by_cases h : isMongoNumZero (getKey d "or-mp") = true
  · have h2 : migMpStep d = setKey d "or-mp" (.str "no") := by
      simp [migMpStep, h]
    rw [h2]
    simp [migMpStep, isMongoNumZero, getKey_setKey_self]
  · simp [migMpStep, h]

theorem migF2I_fix (d : Doc) :
    migF2IFalse (migF2ITrue (migF2IFalse d)) = migF2ITrue (migF2IFalse d) ∧
    migF2ITrue (migF2ITrue (migF2IFalse d)) = migF2ITrue (migF2IFalse d) := by
  by_cases h0 : isBoolVal (getKey d "frábært") false = true
  · have e1 : migF2IFalse d = setKey d "frábært" (.int 0) := by simp [migF2IFalse, h0]
    have hg : getKey (setKey d "frábært" (JVal.int 0)) "frábært" = some (.int 0) :=
      getKey_setKey_self _ _ _
    have e2 : migF2ITrue (setKey d "frábært" (.int 0)) = setKey d "frábært" (.int 0) := by
      simp [migF2ITrue, isBoolVal, hg]
    rw [e1, e2]
    exact ⟨by simp [migF2IFalse, isBoolVal, hg], e2⟩
  · have e1 : migF2IFalse d = d := by simp [migF2IFalse, h0]
    rw [e1]
    by_cases h1 : isBoolVal (getKey d "frábært") true = true
    · have e2 : migF2ITrue d = setKey d "frábært" (.int 1) := by simp [migF2ITrue, h1]
      have hg : getKey (setKey d "frábært" (JVal.int 1)) "frábært" = some (.int 1) :=
        getKey_setKey_self _ _ _
      rw [e2]
      exact ⟨by simp [migF2IFalse, isBoolVal, hg], by simp [migF2ITrue, isBoolVal, hg]⟩
    · have e2 : migF2ITrue d = d := by simp [migF2ITrue, h1]
      rw [e2]
      exact ⟨by simp [migF2IFalse, h0], by simp [migF2ITrue, h1]⟩

theorem objOk_cases (d : Doc) (k1 : String) (h : objOk d k1 = true) :
    getKey d k1 = none ∨ ∃ o, getKey d k1 = some (.obj o) := by
  unfold objOk at h
  cases hg : getKey d k1 with
  | none => exact Or.inl rfl
  | some x =>
    rw [hg] at h
    cases x with
    | null => simp at h
    | bool b => simp at h
    | int n => simp at h
    | float q => simp at h
    | str t => simp at h
    | pydate t => simp at h
    | arr xs => simp at h
    | obj o => exact Or.inr ⟨o, rfl⟩

theorem getPath2_setPath2_self (d : Doc) (k1 k2 : String) (v : JVal)
    (h : objOk d k1 = true) :
    getPath2 (setPath2 d k1 k2 v) k1 k2 = some v := by
  rcases objOk_cases d k1 h with hg | ⟨o, hg⟩
  · simp [setPath2, getPath2, hg, getKey_setKey_self, getKey]
  · simp [setPath2, getPath2, hg, getKey_setKey_self]

theorem getPath2_setPath2_ne (d : Doc) (k1 k2 k2' : String) (v : JVal)
    (h : objOk d k1 = true) (hne : k2' ≠ k2) :
    getPath2 (setPath2 d k1 k2 v) k1 k2' = getPath2 d k1 k2' := by
  rcases objOk_cases d k1 h with hg | ⟨o, hg⟩
  · simp [setPath2, getPath2, hg, getKey_setKey_self, getKey, Ne.symm hne]
  · simp [setPath2, getPath2, hg, getKey_setKey_self, getKey_setKey_ne _ _ _ _ hne]

theorem objOk_setPath2 (d : Doc) (k1 k2 : String) (v : JVal) (h : objOk d k1 = true) :
    objOk (setPath2 d k1 k2 v) k1 = true := by
  rcases objOk_cases d k1 h with hg | ⟨o, hg⟩
  · simp [setPath2, objOk, hg, getKey_setKey_self]
  · simp [setPath2, objOk, hg, getKey_setKey_self]

theorem getPath2_unsetPath2_self (d : Doc) (k1 k2 : String) :
    getPath2 (unsetPath2 d k1 k2) k1 k2 = none := by
  cases hg : getKey d k1 with
  | none => simp [unsetPath2, getPath2, hg]
  | some x =>
    cases x <;>
      simp [unsetPath2, getPath2, hg, getKey_setKey_self, getKey_unsetKey_self]

theorem getPath2_unsetPath2_ne (d : Doc) (k1 k2 k2' : String) (hne : k2' ≠ k2) :
    getPath2 (unsetPath2 d k1 k2) k1 k2' = getPath2 d k1 k2' := by
  cases hg : getKey d k1 with
  | none => simp [unsetPath2, getPath2, hg]
  | some x =>
    cases x <;>
      simp [unsetPath2, getPath2, hg, getKey_setKey_self, getKey_unsetKey_ne _ _ _ hne]

theorem objOk_unsetPath2 (d : Doc) (k1 k2 : String) (h : objOk d k1 = true) :
    objOk (unsetPath2 d k1 k2) k1 = true := by
  rcases objOk_cases d k1 h with hg | ⟨o, hg⟩
  · simp [unsetPath2, objOk, hg]
  · simp [unsetPath2, objOk, hg, getKey_setKey_self]

theorem objOk_of_hasPath2 (d : Doc) (k1 k2 : String) (h : hasPath2 d k1 k2 = true) :
    objOk d k1 = true := by
  unfold hasPath2 getPath2 at h
  unfold objOk
  cases hg : getKey d k1 with
  | none => simp [hg] at h
  | some x => cases x <;> simp_all [hg]

theorem migSplit1_id_of (d : Doc) (h : hasPath2 d "upplýsingar" "lip-riv" = false) :
    migSplit1 d = d := by
  simp [migSplit1, h]

theorem migSplit2_id_of_left (d : Doc) (h : hasPath2 d "upplýsingar" "sið lip" = true) :
    migSplit2 d = d := by
  simp [migSplit2, h]

theorem migSplit2_id_of_right (d : Doc) (h : hasPath2 d "upplýsingar" "sið-riv" = true) :
    migSplit2 d = d := by
  simp [migSplit2, h]

theorem migSplit_fix (d : Doc) (h : objOk d "upplýsingar" = true) :
    migSplit1 (migSplit2 (migSplit1 d)) = migSplit2 (migSplit1 d) ∧
    migSplit2 (migSplit2 (migSplit1 d)) = migSplit2 (migSplit1 d) := by
  by_cases h1 : hasPath2 d "upplýsingar" "lip-riv" = true
  · have e1 : migSplit1 d =
        unsetPath2
          (setPath2 (setPath2 d "upplýsingar" "sið lip"
            ((getPath2 d "upplýsingar" "lip-riv").getD (.str "")))
            "upplýsingar" "sið-riv" (.str "--:--"))
          "upplýsingar" "lip-riv" := by
      simp [migSplit1, h1]
    have hobjA : objOk (setPath2 d "upplýsingar" "sið lip"
        ((getPath2 d "upplýsingar" "lip-riv").getD (.str ""))) "upplýsingar" = true :=
      objOk_setPath2 _ _ _ _ h
    have hlr : hasPath2 (migSplit1 d) "upplýsingar" "lip-riv" = false := by
      rw [e1]
      simp [hasPath2, getPath2_unsetPath2_self]
    have hsl : hasPath2 (migSplit1 d) "upplýsingar" "sið lip" = true := by
      rw [e1]
      unfold hasPath2
      rw [getPath2_unsetPath2_ne _ _ _ _ (by decide),
          getPath2_setPath2_ne _ _ _ _ _ hobjA (by decide),
          getPath2_setPath2_self _ _ _ _ h]
      rfl
    have hA : migSplit2 (migSplit1 d) = migSplit1 d := migSplit2_id_of_left _ hsl
    rw [hA]
    exact ⟨migSplit1_id_of _ hlr, hA⟩
  · rw [Bool.not_eq_true] at h1
    have e1 : migSplit1 d = d := migSplit1_id_of _ h1
    rw [e1]
    by_cases h2 : hasPath2 d "upplýsingar" "sið lip" = true
    · have hA : migSplit2 d = d := migSplit2_id_of_left _ h2
      rw [hA]
      exact ⟨migSplit1_id_of _ h1, hA⟩
    · by_cases h3 : hasPath2 d "upplýsingar" "sið-riv" = true
      · have hA : migSplit2 d = d := migSplit2_id_of_right _ h3
        rw [hA]
        exact ⟨migSplit1_id_of _ h1, hA⟩
      · rw [Bool.not_eq_true] at h2 h3
        have e2 : migSplit2 d =
            setPath2 (setPath2 d "upplýsingar" "sið lip" (.str ""))
              "upplýsingar" "sið-riv" (.str "--:--") := by
          simp [migSplit2, h2, h3]
        have hobjA : objOk (setPath2 d "upplýsingar" "sið lip" (.str "")) "upplýsingar" = true :=
          objOk_setPath2 _ _ _ _ h
        have hlrB : hasPath2 (migSplit2 d) "upplýsingar" "lip-riv" = false := by
          rw [e2]
          unfold hasPath2
          rw [getPath2_setPath2_ne _ _ _ _ _ hobjA (by decide),
              getPath2_setPath2_ne _ _ _ _ _ h (by decide)]
          unfold hasPath2 at h1
          exact h1
        have hsrB : hasPath2 (migSplit2 d) "upplýsingar" "sið-riv" = true := by
          rw [e2]
          unfold hasPath2
          rw [getPath2_setPath2_self _ _ _ _ hobjA]
          rfl
        rw [e2] at hlrB hsrB ⊢
        exact ⟨migSplit1_id_of _ hlrB, migSplit2_id_of_right _ hsrB⟩

/-- C9: every migration procedure is idempotent — on the document set
produced by a first run, a second run rewrites no document (each step is the
identity there) and yields the same final document set — and a run that
matches zero documents performs no writes.  The split migration's dotted-path
updates are well defined on documents whose 'upplýsingar' is absent or an
object (`objOk`), which is every shape the application and the migrations
themselves produce. -/
theorem C9_migrations_idempotent (s : List Doc)
    (h : ∀ d ∈ s, objOk d "upplýsingar" = true) :
    (migrate_frabaert (migrate_frabaert s) = migrate_frabaert s ∧
     ∀ d ∈ migrate_frabaert s, migFrabaertStep d = d) ∧
    (migrate_frabaert_to_int (migrate_frabaert_to_int s) = migrate_frabaert_to_int s ∧
     ∀ d ∈ migrate_frabaert_to_int s, migF2IFalse d = d ∧ migF2ITrue d = d) ∧
    (migrate_postop_dol (migrate_postop_dol s) = migrate_postop_dol s ∧
     ∀ d ∈ migrate_postop_dol s, migDolStep d = d) ∧
    (migrate_postop_mp (migrate_postop_mp s) = migrate_postop_mp s ∧
     ∀ d ∈ migrate_postop_mp s, migMpStep d = d) ∧
    (migrate_split_lip_riv (migrate_split_lip_riv s) = migrate_split_lip_riv s ∧
     ∀ d ∈ migrate_split_lip_riv s, migSplit1 d = d ∧ migSplit2 d = d) ∧
    ((∀ d ∈ s, hasKey d "frábært" = true) → migrate_frabaert s = s) ∧
    ((∀ d ∈ s, hasKey d "dol" = true) → migrate_postop_dol s = s) ∧
    ((∀ d ∈ s, isMongoNumZero (getKey d "or-mp") = false) → migrate_postop_mp s = s) := by
  have hp1 : ∀ d ∈ migrate_frabaert s, migFrabaertStep d = d := by
    intro d hd
    obtain ⟨x, hx, rfl⟩ := List.mem_map.mp hd
    exact migFrabaertStep_fix x
  have hp2 : ∀ d ∈ migrate_frabaert_to_int s, migF2IFalse d = d ∧ migF2ITrue d = d := by
    intro d hd
    obtain ⟨y, hy, rfl⟩ := List.mem_map.mp hd
    obtain ⟨x, hx, rfl⟩ := List.mem_map.mp hy
    exact migF2I_fix x
  have hp3 : ∀ d ∈ migrate_postop_dol s, migDolStep d = d := by
    intro d hd
    obtain ⟨x, hx, rfl⟩ := List.mem_map.mp hd
    exact migDolStep_fix x
  have hp4 : ∀ d ∈ migrate_postop_mp s, migMpStep d = d := by
    intro d hd
    obtain ⟨x, hx, rfl⟩ := List.mem_map.mp hd
    exact migMpStep_fix x
  have hp5 : ∀ d ∈ migrate_split_lip_riv s, migSplit1 d = d ∧ migSplit2 d = d := by
    intro d hd
    obtain ⟨y, hy, rfl⟩ := List.mem_map.mp hd
    obtain ⟨x, hx, rfl⟩ := List.mem_map.mp hy
    exact migSplit_fix x (h x hx)
  refine ⟨⟨map_fix_of_pointwise _ _ hp1, hp1⟩, ⟨?_, hp2⟩, ⟨map_fix_of_pointwise _ _ hp3, hp3⟩,
    ⟨map_fix_of_pointwise _ _ hp4, hp4⟩, ⟨?_, hp5⟩, ?_, ?_, ?_⟩
  · show ((migrate_frabaert_to_int s).map migF2IFalse).map migF2ITrue =
      migrate_frabaert_to_int s
    rw [map_fix_of_pointwise _ _ (fun d hd => (hp2 d hd).1),
        map_fix_of_pointwise _ _ (fun d hd => (hp2 d hd).2)]
  · show ((migrate_split_lip_riv s).map migSplit1).map migSplit2 = migrate_split_lip_riv s
    rw [map_fix_of_pointwise _ _ (fun d hd => (hp5 d hd).1),
        map_fix_of_pointwise _ _ (fun d hd => (hp5 d hd).2)]
  · intro hall
    exact map_fix_of_pointwise _ _ (fun d hd => by simp [migFrabaertStep, hall d hd])
  · intro hall
    exact map_fix_of_pointwise _ _ (fun d hd => by simp [migDolStep, hall d hd])
  · intro hall
    exact map_fix_of_pointwise _ _ (fun d hd => by simp [migMpStep, hall d hd])

/-- C9 witness: a concrete mixed store exercising each migration. -/
theorem C9_witness :
    (∀ d ∈ [[("frábært", JVal.bool true), ("or-mp", JVal.int 0)],
            [("upplýsingar", JVal.obj [("lip-riv", JVal.str "23:10")])]],
       objOk d "upplýsingar" = true) ∧
    ((migrate_frabaert (migrate_frabaert
        [[("frábært", JVal.bool true), ("or-mp", JVal.int 0)],
         [("upplýsingar", JVal.obj [("lip-riv", JVal.str "23:10")])]]) =
      migrate_frabaert [[("frábært", JVal.bool true), ("or-mp", JVal.int 0)],
         [("upplýsingar", JVal.obj [("lip-riv", JVal.str "23:10")])]] ∧
     ∀ d ∈ migrate_frabaert [[("frábært", JVal.bool true), ("or-mp", JVal.int 0)],
         [("upplýsingar", JVal.obj [("lip-riv", JVal.str "23:10")])]],
       migFrabaertStep d = d) ∧
    (migrate_frabaert_to_int (migrate_frabaert_to_int
        [[("frábært", JVal.bool true), ("or-mp", JVal.int 0)],
         [("upplýsingar", JVal.obj [("lip-riv", JVal.str "23:10")])]]) =
      migrate_frabaert_to_int [[("frábært", JVal.bool true), ("or-mp", JVal.int 0)],
         [("upplýsingar", JVal.obj [("lip-riv", JVal.str "23:10")])]] ∧
     ∀ d ∈ migrate_frabaert_to_int [[("frábært", JVal.bool true), ("or-mp", JVal.int 0)],
         [("upplýsingar", JVal.obj [("lip-riv", JVal.str "23:10")])]],
       migF2IFalse d = d ∧ migF2ITrue d = d) ∧
    (migrate_postop_dol (migrate_postop_dol
        [[("frábært", JVal.bool true), ("or-mp", JVal.int 0)],
         [("upplýsingar", JVal.obj [("lip-riv", JVal.str "23:10")])]]) =
      migrate_postop_dol [[("frábært", JVal.bool true), ("or-mp", JVal.int 0)],
         [("upplýsingar", JVal.obj [("lip-riv", JVal.str "23:10")])]] ∧
     ∀ d ∈ migrate_postop_dol [[("frábært", JVal.bool true), ("or-mp", JVal.int 0)],
         [("upplýsingar", JVal.obj [("lip-riv", JVal.str "23:10")])]],
       migDolStep d = d) ∧
    (migrate_postop_mp (migrate_postop_mp
        [[("frábært", JVal.bool true), ("or-mp", JVal.int 0)],
         [("upplýsingar", JVal.obj [("lip-riv", JVal.str "23:10")])]]) =
      migrate_postop_mp [[("frábært", JVal.bool true), ("or-mp", JVal.int 0)],
         [("upplýsingar", JVal.obj [("lip-riv", JVal.str "23:10")])]] ∧
     ∀ d ∈ migrate_postop_mp [[("frábært", JVal.bool true), ("or-mp", JVal.int 0)],
         [("upplýsingar", JVal.obj [("lip-riv", JVal.str "23:10")])]],
       migMpStep d = d) ∧
    (migrate_split_lip_riv (migrate_split_lip_riv
        [[("frábært", JVal.bool true), ("or-mp", JVal.int 0)],
         [("upplýsingar", JVal.obj [("lip-riv", JVal.str "23:10")])]]) =
      migrate_split_lip_riv [[("frábært", JVal.bool true), ("or-mp", JVal.int 0)],
         [("upplýsingar", JVal.obj [("lip-riv", JVal.str "23:10")])]] ∧
     ∀ d ∈ migrate_split_lip_riv [[("frábært", JVal.bool true), ("or-mp", JVal.int 0)],
         [("upplýsingar", JVal.obj [("lip-riv", JVal.str "23:10")])]],
       migSplit1 d = d ∧ migSplit2 d = d) ∧
    ((∀ d ∈ [[("frábært", JVal.bool true), ("or-mp", JVal.int 0)],
            [("upplýsingar", JVal.obj [("lip-riv", JVal.str "23:10")])]],
        hasKey d "frábært" = true) →
      migrate_frabaert [[("frábært", JVal.bool true), ("or-mp", JVal.int 0)],
         [("upplýsingar", JVal.obj [("lip-riv", JVal.str "23:10")])]] =
        [[("frábært", JVal.bool true), ("or-mp", JVal.int 0)],
         [("upplýsingar", JVal.obj [("lip-riv", JVal.str "23:10")])]]) ∧
    ((∀ d ∈ [[("frábært", JVal.bool true), ("or-mp", JVal.int 0)],
            [("upplýsingar", JVal.obj [("lip-riv", JVal.str "23:10")])]],
        hasKey d "dol" = true) →
      migrate_postop_dol [[("frábært", JVal.bool true), ("or-mp", JVal.int 0)],
         [("upplýsingar", JVal.obj [("lip-riv", JVal.str "23:10")])]] =
        [[("frábært", JVal.bool true), ("or-mp", JVal.int 0)],
         [("upplýsingar", JVal.obj [("lip-riv", JVal.str "23:10")])]]) ∧
    ((∀ d ∈ [[("frábært", JVal.bool true), ("or-mp", JVal.int 0)],
            [("upplýsingar", JVal.obj [("lip-riv", JVal.str "23:10")])]],
        isMongoNumZero (getKey d "or-mp") = false) →
      migrate_postop_mp [[("frábært", JVal.bool true), ("or-mp", JVal.int 0)],
         [("upplýsingar", JVal.obj [("lip-riv", JVal.str "23:10")])]] =
        [[("frábært", JVal.bool true), ("or-mp", JVal.int 0)],
         [("upplýsingar", JVal.obj [("lip-riv", JVal.str "23:10")])]])) :=
  ⟨by decide,
   C9_migrations_idempotent
     [[("frábært", JVal.bool true), ("or-mp", JVal.int 0)],
      [("upplýsingar", JVal.obj [("lip-riv", JVal.str "23:10")])]] (by decide)⟩
